import Mathlib

/-!
# EnhancedDinoGame: a shallow embedding of `src/script.js`

The simulation core of the runner game (class `EnhancedDinoGame`) is embedded as
pure functions on an explicit `State` record.

Modelling conventions
* JavaScript numbers that hold coordinates and speeds are exact rationals (`ℚ`);
  counters (score, lives, level, timers, inventory counts) are integers (`Int`).
* `Math.random()` is an explicit argument (a rational in `[0, 1)`).
* The canvas size is read back through the integer DOM attributes (`canvasAttribute`).
* JavaScript's double-precision rounding is not modelled: sums and products are exact.
  A statement that turns on an exact tie (two values that are equal in exact arithmetic
  and may differ by a rounding error in doubles) is outside this embedding.
* The lookup `difficultySettings[this.difficulty]` has three outcomes: one of the four
  entries of the table; a member that the object literal inherits from
  `Object.prototype` (such as `constructor` or `toString`), a defined value without any
  of the three settings fields; or `undefined`.  Reading a settings field of
  `undefined` throws a `TypeError`; reading one of an inherited member gives
  `undefined`, which turns the arithmetic on it into `NaN`.  The number types of the
  model hold no `NaN`.  Methods that read a settings field return
  `Except Failure State`: `.ok s` is a normal return, `.error (.typeError s)` is an
  uncaught `TypeError` and `.error (.notANumber s)` is the point where a `NaN` would be
  written to the state; either carries the state as mutated up to that point.  After a
  `notANumber` outcome the program goes on with the `NaN`, which the model does not
  follow.
* Calls to the collaborators (audio, screen shake, achievement banner, night mode,
  local storage) are recorded, in order, in the ghost field `State.log`.
  Pure DOM writes (`updateDisplay`, the progress bar, drawing) are not modelled.
-/

namespace DinoGame

/-! ## Data model -/

/-- The `type` of an obstacle: `'tall'` or `'normal'`. -/
inductive ObstacleType where
  | tall
  | normal
  deriving DecidableEq, Repr

/-- The three power-up kinds, the keys of `powerUpInventory`. -/
inductive Kind where
  | speedBoost
  | shield
  | slowMo
  deriving DecidableEq, Repr

/-- The argument of `playSound`. -/
inductive Cue where
  | jump
  | hit
  | collect
  | powerup
  | shield
  | achievement
  deriving DecidableEq, Repr

/-- A call to a collaborator, recorded in `State.log`. -/
inductive Call where
  | playSound (c : Cue)
  | shakeScreen
  | showAchievement (id : String)
  | toggleNightMode
  | setItem (highScore : Int)
  deriving DecidableEq, Repr

/-- One entry of `difficultySettings`. -/
structure DifficultySettings where
  speedMultiplier : ℚ
  obstacleFrequency : Int
  livesBonus : Int
  deriving DecidableEq, Repr

/-- The entries of the table `this.difficultySettings` (lines 30-35), as a lookup by key;
`none` means that the key is not one of the four own keys of the object literal. -/
def difficultySettings (difficulty : String) : Option DifficultySettings :=
  if difficulty = "easy" then some ⟨0.7, 150, 2⟩
  else if difficulty = "normal" then some ⟨1.0, 120, 0⟩
  else if difficulty = "hard" then some ⟨1.3, 90, -1⟩
  else if difficulty = "extreme" then some ⟨1.6, 60, -2⟩
  else none

/-- The property names that every object literal inherits from `Object.prototype`
(ECMAScript): `difficultySettings[key]` for one of them is a defined value (a function
or the prototype object) on which `speedMultiplier`, `obstacleFrequency` and
`livesBonus` are all `undefined`.  For any other key outside the table the lookup is
`undefined`. -/
def objectPrototypeKeys : List String :=
  ["constructor", "__defineGetter__", "__defineSetter__", "hasOwnProperty",
   "__lookupGetter__", "__lookupSetter__", "isPrototypeOf", "propertyIsEnumerable",
   "toString", "valueOf", "__proto__", "toLocaleString"]

/-- The object `this.dino` (lines 41-53). -/
structure Dino where
  x : ℚ
  y : ℚ
  width : ℚ
  height : ℚ
  groundY : ℚ
  jumping : Bool
  ducking : Bool
  jumpVelocity : ℚ
  gravity : ℚ
  hasShield : Bool
  shieldTime : Int
  deriving DecidableEq, Repr

/-- An element of `this.obstacles` (lines 356-362). -/
structure Obstacle where
  x : ℚ
  y : ℚ
  width : ℚ
  height : ℚ
  type : ObstacleType
  deriving DecidableEq, Repr

/-- An element of `this.powerUps` (lines 387-393). -/
structure PowerUp where
  x : ℚ
  y : ℚ
  width : ℚ
  height : ℚ
  type : Kind
  deriving DecidableEq, Repr

/-- The object `this.powerUpInventory` (lines 63-67). -/
structure Inventory where
  speedBoost : Int
  shield : Int
  slowMo : Int
  deriving DecidableEq, Repr

/-- Read `powerUpInventory[type]`. -/
def Inventory.get (inv : Inventory) : Kind → Int
  | .speedBoost => inv.speedBoost
  | .shield => inv.shield
  | .slowMo => inv.slowMo

/-- Write `powerUpInventory[type] = v`. -/
def Inventory.set (inv : Inventory) (k : Kind) (v : Int) : Inventory :=
  match k with
  | .speedBoost => { inv with speedBoost := v }
  | .shield => { inv with shield := v }
  | .slowMo => { inv with slowMo := v }

/-- The object `this.effects` (lines 70-75). -/
structure Effects where
  speedBoost : Bool
  slowMo : Bool
  speedBoostTime : Int
  slowMoTime : Int
  deriving DecidableEq, Repr

/-- An element of `this.achievements` (lines 78-83); `isLevel` is `type === 'level'`. -/
structure Achievement where
  id : String
  name : String
  description : String
  threshold : Int
  unlocked : Bool
  isLevel : Bool
  deriving DecidableEq, Repr

/-- The mutable fields of an `EnhancedDinoGame` instance that the simulation reads or
writes, with the canvas size and the ghost call log. -/
structure State where
  canvasWidth : ℚ
  canvasHeight : ℚ
  gameRunning : Bool
  gameOver : Bool
  gamePaused : Bool
  score : Int
  highScore : Int
  level : Int
  lives : Int
  baseSpeed : ℚ
  gameSpeed : ℚ
  nightMode : Bool
  soundEnabled : Bool
  difficulty : String
  scale : ℚ
  dino : Dino
  obstacles : List Obstacle
  powerUps : List PowerUp
  obstacleTimer : Int
  powerUpTimer : Int
  powerUpInventory : Inventory
  effects : Effects
  achievements : List Achievement
  log : List Call
  deriving DecidableEq, Repr

/-- The two ways in which a method that reads a settings field leaves the model: an
uncaught `TypeError` (the lookup was `undefined`), or a `NaN` about to be written (the
lookup was an inherited member).  Either carries the state as mutated so far. -/
inductive Failure where
  | typeError (s : State)
  | notANumber (s : State)

/-- The state carried by a failure. -/
def Failure.state : Failure → State
  | .typeError s => s
  | .notANumber s => s

/-- The state carried by either outcome of a fallible method. -/
def finalState : Except Failure State → State
  | .ok s => s
  | .error e => e.state

/-! ## Construction -/

/-- The value read back from `canvas.width` or `canvas.height` after assigning `v`.  The
DOM attribute is an `unsigned long`: `v` is truncated towards zero and reduced modulo
2^32, and a result above 2147483647 is replaced by the default of the attribute (300
for the width, 150 for the height). -/
def canvasAttribute (dflt : Int) (v : ℚ) : ℚ :=
  let n : Int := (if 0 ≤ v then Int.floor v else Int.ceil v) % 4294967296
  if n ≤ 2147483647 then (n : ℚ) else (dflt : ℚ)

/-- The canvas size set by `resizeCanvas` (lines 88-101) for a container of the given
client width: `(canvas.width, canvas.height)`. -/
def resizeCanvas (clientWidth : ℚ) : ℚ × ℚ :=
  let maxWidth := min (clientWidth - 40) 800
  let aspect : ℚ := 800 / 200
  let width := canvasAttribute 300 maxWidth
  let height := canvasAttribute 150 (maxWidth / aspect)
  -- Ensure minimum size for mobile
  if height < 150 then
    (canvasAttribute 300 (canvasAttribute 150 150 * aspect), canvasAttribute 150 150)
  else (width, height)

/-- The achievement list of the constructor (lines 78-83). -/
def initialAchievements : List Achievement :=
  [ ⟨"first100", "Getting Started", "Score 100 points", 100, false, false⟩,
    ⟨"first500", "Warming Up", "Score 500 points", 500, false, false⟩,
    ⟨"first1000", "Dino Master", "Score 1000 points", 1000, false, false⟩,
    ⟨"level5", "Survivor", "Reach level 5", 5, false, true⟩ ]

/-- The state built by the constructor (lines 2-86); `stored` is the value of
`localStorage.getItem('dinoHighScore')`, absent (`none`) when never written. -/
def initialState (clientWidth : ℚ) (stored : Option Int) : State :=
  let canvas := resizeCanvas clientWidth
  let scale := min (canvas.1 / 800) (canvas.2 / 200)
  { canvasWidth := canvas.1
    canvasHeight := canvas.2
    gameRunning := false
    gameOver := false
    gamePaused := false
    score := 0
    highScore := stored.getD 0
    level := 1
    lives := 3
    baseSpeed := 3
    gameSpeed := 3
    nightMode := false
    soundEnabled := true
    difficulty := "normal"
    scale := scale
    dino :=
      { x := 50 * scale
        y := 150 * scale
        width := 40 * scale
        height := 40 * scale
        groundY := 150 * scale
        jumping := false
        ducking := false
        jumpVelocity := 0
        gravity := 0.6 * scale
        hasShield := false
        shieldTime := 0 }
    obstacles := []
    powerUps := []
    obstacleTimer := 0
    powerUpTimer := 0
    powerUpInventory := { speedBoost := 0, shield := 0, slowMo := 0 }
    effects := { speedBoost := false, slowMo := false, speedBoostTime := 0, slowMoTime := 0 }
    achievements := initialAchievements
    log := [] }

/-! ## Session control -/

/-- The method `resetLives` (lines 235-239).  On an inherited member `3 + undefined` is
`NaN` and `Math.max(1, NaN)` is `NaN`, which would be written to `lives`. -/
def resetLives (s : State) : Except Failure State :=
  match difficultySettings s.difficulty with
  | none =>
    if s.difficulty ∈ objectPrototypeKeys then .error (.notANumber s)
    else .error (.typeError s)
  | some settings => .ok { s with lives := max 1 (3 + settings.livesBonus) }

/-- The method `startGame` (lines 291-309). -/
def startGame (s : State) : Except Failure State := do
  let s := { s with gameRunning := true, gameOver := false, gamePaused := false,
                    score := 0, level := 1 }
  let s ← resetLives s
  let s := { s with baseSpeed := 3 * s.scale, gameSpeed := 3 * s.scale,
                    obstacles := [], powerUps := [], obstacleTimer := 0, powerUpTimer := 0,
                    effects := { speedBoost := false, slowMo := false,
                                 speedBoostTime := 0, slowMoTime := 0 } }
  let s := { s with dino := { s.dino with hasShield := false, shieldTime := 0 } }
  let s := { s with dino := { s.dino with y := s.dino.groundY } }
  pure s

/-- The method `restartGame` (lines 311-314). -/
def restartGame (s : State) : Except Failure State :=
  startGame { s with gameOver := false }

/-- The method `jump` (lines 241-251). -/
def jump (s : State) : Except Failure State :=
  if !s.gameRunning && !s.gameOver then
    startGame s
  else if s.gameRunning && !s.dino.jumping && !s.gamePaused then
    .ok { s with dino := { s.dino with jumping := true, jumpVelocity := -12 * s.scale },
                 log := s.log ++ [Call.playSound Cue.jump] }
  else if s.gameOver then
    restartGame s
  else
    .ok s

/-- The method `duck` (lines 253-258). -/
def duck (s : State) : State :=
  if s.gameRunning && !s.dino.jumping && !s.gamePaused then
    { s with dino := { s.dino with ducking := true, height := 25 * s.scale } }
  else s

/-- The handlers that release the duck (lines 152-158 and 176-180). -/
def releaseDuck (s : State) : State :=
  { s with dino := { s.dino with ducking := false, height := 40 * s.scale } }

/-- The method `usePowerUp` (lines 260-282). -/
def usePowerUp (type : Kind) (s : State) : State :=
  if s.powerUpInventory.get type > 0 && s.gameRunning && !s.gamePaused then
    let s := { s with powerUpInventory :=
                        s.powerUpInventory.set type (s.powerUpInventory.get type - 1) }
    let s :=
      match type with
      | .speedBoost => { s with effects := { s.effects with speedBoost := true, speedBoostTime := 300 } }
      | .shield => { s with dino := { s.dino with hasShield := true, shieldTime := 300 } }
      | .slowMo => { s with effects := { s.effects with slowMo := true, slowMoTime := 300 } }
    { s with log := s.log ++ [Call.playSound Cue.powerup] }
  else s

/-- The method `togglePause` (lines 284-289). -/
def togglePause (s : State) : State :=
  if s.gameRunning then { s with gamePaused := !s.gamePaused } else s

/-- The `change` handler of the difficulty selector (lines 215-218). -/
def selectDifficulty (value : String) (s : State) : Except Failure State :=
  resetLives { s with difficulty := value }

/-- The `click` handler of the sound toggle (lines 220-223). -/
def toggleSound (s : State) : State :=
  { s with soundEnabled := !s.soundEnabled }

/-! ## Per-tick updates -/

/-- The method `updateDino` (lines 316-345).  Position and velocity are integrated in
exact arithmetic; the doubles of the source add a rounding error at each step, so the
update at which `y >= groundY` first holds can differ when the exact values tie. -/
def updateDino (s : State) : State :=
  if s.gamePaused then s else
  let d := s.dino
  -- Handle jumping
  let d :=
    if d.jumping then
      let d : Dino := { d with y := d.y + d.jumpVelocity }
      let d : Dino := { d with jumpVelocity := d.jumpVelocity + d.gravity }
      if d.y ≥ d.groundY then
        { d with y := d.groundY, jumping := false, jumpVelocity := 0 }
      else d
    else d
  -- Handle ducking
  let d :=
    if d.ducking && !d.jumping then { d with y := d.groundY + 15 * s.scale }
    else if !d.jumping then { d with y := d.groundY }
    else d
  -- Update shield
  let d :=
    if d.hasShield then
      let d : Dino := { d with shieldTime := d.shieldTime - 1 }
      if d.shieldTime ≤ 0 then { d with hasShield := false } else d
    else d
  { s with dino := d }

/-- The value `currentSpeed` computed on lines 367, 398 and 683. -/
def currentSpeed (s : State) : ℚ :=
  if s.effects.slowMo then s.gameSpeed * 0.3 else s.gameSpeed

/-- The spawn threshold `Math.max(30, frequency)` of lines 352-354. -/
def spawnThreshold (settings : DifficultySettings) (level : Int) : Int :=
  let frequency := settings.obstacleFrequency - Int.floor ((level : ℚ) * 10)
  max 30 frequency

/-- Lines 350-364 of `updateObstacles`: advance the timer and spawn; `r` is the value of
`Math.random()` on line 355. -/
def spawnObstacle (r : ℚ) (settings : DifficultySettings) (s : State) : State :=
  let s := { s with obstacleTimer := s.obstacleTimer + 1 }
  if s.obstacleTimer > spawnThreshold settings s.level then
    let obstacleType := if r < 0.3 then ObstacleType.tall else ObstacleType.normal
    { s with
        obstacles := s.obstacles ++
          [{ x := s.canvasWidth
             y := if obstacleType = ObstacleType.tall then 120 * s.scale else 160 * s.scale
             width := 20 * s.scale
             height := if obstacleType = ObstacleType.tall then 70 * s.scale else 30 * s.scale
             type := obstacleType }]
        obstacleTimer := 0 }
  else s

/-- The loop of lines 368-375, `for (let i = n - 1; i >= 0; i--)`, on the pair
(obstacle list, score): the first argument is `i + 1`.  The index is always in range
(the loop starts at `length - 1` and only removes at the current index). -/
def moveObstaclesLoop (speed : ℚ) : Nat → List Obstacle × Int → List Obstacle × Int
  | 0, st => st
  | i + 1, (obstacles, score) =>
    match obstacles[i]? with
    | none => (obstacles, score)
    | some o =>
      let o := { o with x := o.x - speed }
      if o.x + o.width < 0 then
        moveObstaclesLoop speed i (obstacles.eraseIdx i, score + 10)
      else
        moveObstaclesLoop speed i (obstacles.set i o, score)

/-- Lines 366-375 of `updateObstacles`: move the obstacles and score the removed ones. -/
def moveObstacles (s : State) : State :=
  let res := moveObstaclesLoop (currentSpeed s) s.obstacles.length (s.obstacles, s.score)
  { s with obstacles := res.1, score := res.2 }

/-- The method `updateObstacles` (lines 347-376); `r` is the draw of line 355.  On an
inherited member `frequency` is `NaN`, the comparison with `Math.max(30, NaN)` is false,
so nothing is spawned and the obstacles are moved as usual. -/
def updateObstacles (r : ℚ) (s : State) : Except Failure State :=
  if s.gamePaused then .ok s else
  match difficultySettings s.difficulty with
  | none =>
    if s.difficulty ∈ objectPrototypeKeys then
      .ok (moveObstacles { s with obstacleTimer := s.obstacleTimer + 1 })
    else .error (.typeError { s with obstacleTimer := s.obstacleTimer + 1 })
  | some settings => .ok (moveObstacles (spawnObstacle r settings s))

/-- The array `types` of line 385. -/
def types : List Kind := [Kind.speedBoost, Kind.shield, Kind.slowMo]

/-- Lines 381-395 of `updatePowerUps`: advance the timer and spawn; `r1` is the draw of
line 384 and `r2` the draw of line 386 (both in `[0, 1)`, so the index is in range). -/
def spawnPowerUp (r1 r2 : ℚ) (s : State) : State :=
  let s := { s with powerUpTimer := s.powerUpTimer + 1 }
  if s.powerUpTimer > 400 && r1 < 0.05 then
    let type := types.getD (Int.toNat (Int.floor (r2 * types.length))) Kind.slowMo
    { s with
        powerUps := s.powerUps ++
          [{ x := s.canvasWidth, y := 140 * s.scale, width := 25 * s.scale,
             height := 25 * s.scale, type := type }]
        powerUpTimer := 0 }
  else s

/-- The loop of lines 399-405 on the pickup list; the first argument is `i + 1`. -/
def movePowerUpsLoop (speed : ℚ) : Nat → List PowerUp → List PowerUp
  | 0, powerUps => powerUps
  | i + 1, powerUps =>
    match powerUps[i]? with
    | none => powerUps
    | some p =>
      let p := { p with x := p.x - speed }
      if p.x + p.width < 0 then
        movePowerUpsLoop speed i (powerUps.eraseIdx i)
      else
        movePowerUpsLoop speed i (powerUps.set i p)

/-- Lines 397-405 of `updatePowerUps`: move the pickups. -/
def movePowerUps (s : State) : State :=
  { s with powerUps := movePowerUpsLoop (currentSpeed s) s.powerUps.length s.powerUps }

/-- The method `updatePowerUps` (lines 378-406). -/
def updatePowerUps (r1 r2 : ℚ) (s : State) : State :=
  if s.gamePaused then s else movePowerUps (spawnPowerUp r1 r2 s)

/-- The method `updateEffects` (lines 408-424). -/
def updateEffects (s : State) : State :=
  if s.gamePaused then s else
  let e := s.effects
  let e :=
    if e.speedBoost then
      let e : Effects := { e with speedBoostTime := e.speedBoostTime - 1 }
      if e.speedBoostTime ≤ 0 then { e with speedBoost := false } else e
    else e
  let e :=
    if e.slowMo then
      let e : Effects := { e with slowMoTime := e.slowMoTime - 1 }
      if e.slowMoTime ≤ 0 then { e with slowMo := false } else e
    else e
  { s with effects := e }

/-- The method `loseLife` (lines 477-496). -/
def loseLife (s : State) : State :=
  let s := { s with lives := s.lives - 1,
                    log := s.log ++ [Call.playSound Cue.hit, Call.shakeScreen] }
  if s.lives ≤ 0 then
    let s := { s with gameOver := true, gameRunning := false }
    if s.score > s.highScore then
      { s with highScore := s.score, log := s.log ++ [Call.setItem s.score] }
    else s
  else
    { s with dino := { s.dino with hasShield := true, shieldTime := 120 } }

/-- The overlap test of lines 432-440: the character box inset by `5 * scale`. -/
def hitsObstacle (dino : Dino) (scale : ℚ) (obstacle : Obstacle) : Bool :=
  let dinoLeft := dino.x + 5 * scale
  let dinoRight := dino.x + dino.width - 5 * scale
  let dinoTop := dino.y + 5 * scale
  let dinoBottom := dino.y + dino.height - 5 * scale
  decide (dinoLeft < obstacle.x + obstacle.width) &&
  decide (dinoRight > obstacle.x) &&
  decide (dinoTop < obstacle.y + obstacle.height) &&
  decide (dinoBottom > obstacle.y)

/-- The overlap test of lines 458-466: the full character box. -/
def hitsPowerUp (dino : Dino) (powerUp : PowerUp) : Bool :=
  let dinoLeft := dino.x
  let dinoRight := dino.x + dino.width
  let dinoTop := dino.y
  let dinoBottom := dino.y + dino.height
  decide (dinoLeft < powerUp.x + powerUp.width) &&
  decide (dinoRight > powerUp.x) &&
  decide (dinoTop < powerUp.y + powerUp.height) &&
  decide (dinoBottom > powerUp.y)

/-- The body of the obstacle loop on a hit at index `i` (lines 442-450). -/
def resolveObstacleHit (i : Nat) (s : State) : State :=
  if s.dino.hasShield then
    { s with dino := { s.dino with hasShield := false, shieldTime := 0 },
             obstacles := s.obstacles.eraseIdx i,
             log := s.log ++ [Call.playSound Cue.shield, Call.shakeScreen] }
  else loseLife s

/-- The loop of lines 430-453, which ends (`break`) at the first hit; the first
argument is `i + 1`. -/
def obstacleCollisionLoop : Nat → State → State
  | 0, s => s
  | i + 1, s =>
    match s.obstacles[i]? with
    | none => s
    | some obstacle =>
      if hitsObstacle s.dino s.scale obstacle then resolveObstacleHit i s
      else obstacleCollisionLoop i s

/-- The body of the pickup loop on a hit at index `i` (lines 468-471). -/
def collectPowerUp (i : Nat) (powerUp : PowerUp) (s : State) : State :=
  { s with powerUpInventory :=
             s.powerUpInventory.set powerUp.type (s.powerUpInventory.get powerUp.type + 1),
           powerUps := s.powerUps.eraseIdx i,
           log := s.log ++ [Call.playSound Cue.collect] }

/-- The loop of lines 456-474, which ends (`break`) at the first hit; the first
argument is `i + 1`. -/
def powerUpCollisionLoop : Nat → State → State
  | 0, s => s
  | i + 1, s =>
    match s.powerUps[i]? with
    | none => s
    | some powerUp =>
      if hitsPowerUp s.dino powerUp then collectPowerUp i powerUp s
      else powerUpCollisionLoop i s

/-- The method `checkCollisions` (lines 426-475). -/
def checkCollisions (s : State) : State :=
  if s.gamePaused then s else
  let s := obstacleCollisionLoop s.obstacles.length s
  powerUpCollisionLoop s.powerUps.length s

/-- The method `showAchievement` (lines 534-550), as the calls it makes. -/
def showAchievement (achievement : Achievement) : List Call :=
  [Call.showAchievement achievement.id, Call.playSound Cue.achievement]

/-- The loop of `checkAchievements` (lines 523-531) over the achievement list: the
updated list and the calls made, in order. -/
def checkAchievementsLoop (level score : Int) : List Achievement → List Achievement × List Call
  | [] => ([], [])
  | achievement :: rest =>
    let res := checkAchievementsLoop level score rest
    if !achievement.unlocked then
      let value := if achievement.isLevel then level else score
      if value ≥ achievement.threshold then
        ({ achievement with unlocked := true } :: res.1, showAchievement achievement ++ res.2)
      else (achievement :: res.1, res.2)
    else (achievement :: res.1, res.2)

/-- The method `checkAchievements` (lines 522-532). -/
def checkAchievements (s : State) : State :=
  let res := checkAchievementsLoop s.level s.score s.achievements
  { s with achievements := res.1, log := s.log ++ res.2 }

/-- The method `updateGameSpeed` (lines 498-520).  On an inherited member
`baseSpeed * undefined` is `NaN`, which would be written to `gameSpeed`. -/
def updateGameSpeed (s : State) : Except Failure State :=
  if s.gamePaused then .ok s else
  let s := { s with level := Int.floor ((s.score : ℚ) / 300) + 1 }
  let s := { s with baseSpeed := (3 + (Int.floor ((s.score : ℚ) / 100) : ℚ) * 0.5) * s.scale }
  match difficultySettings s.difficulty with
  | none =>
    if s.difficulty ∈ objectPrototypeKeys then .error (.notANumber s)
    else .error (.typeError s)
  | some settings =>
    let s := { s with gameSpeed := s.baseSpeed * settings.speedMultiplier }
    let s := if s.effects.speedBoost then { s with gameSpeed := s.gameSpeed * 1.5 } else s
    let shouldBeNight := decide (Int.tmod (Int.floor ((s.score : ℚ) / 700)) 2 = 1)
    let s :=
      if shouldBeNight != s.nightMode then
        { s with nightMode := shouldBeNight, log := s.log ++ [Call.toggleNightMode] }
      else s
    .ok (checkAchievements s)

/-- The simulation part of `gameLoop` (lines 733-762): `r` is the obstacle draw, `r1` and
`r2` the pickup draws of this frame. -/
def gameLoop (r r1 r2 : ℚ) (s : State) : Except Failure State :=
  if !s.gameRunning && !s.gameOver then .ok s
  else if s.gameRunning then do
    let s := updateDino s
    let s ← updateObstacles r s
    let s := updatePowerUps r1 r2 s
    let s := updateEffects s
    let s := checkCollisions s
    updateGameSpeed s
  else .ok s

/-! ## The step relation -/

/-- The events that drive the simulation: the input handlers of `setupEventListeners`
and one animation frame. -/
inductive Action where
  | jump
  | duck
  | releaseDuck
  | usePowerUp (type : Kind)
  | togglePause
  | selectDifficulty (value : String)
  | toggleSound
  | frame (r r1 r2 : ℚ)

/-- The effect of one event. -/
def step (s : State) : Action → Except Failure State
  | .jump => jump s
  | .duck => .ok (duck s)
  | .releaseDuck => .ok (releaseDuck s)
  | .usePowerUp type => .ok (usePowerUp type s)
  | .togglePause => .ok (togglePause s)
  | .selectDifficulty value => selectDifficulty value s
  | .toggleSound => .ok (toggleSound s)
  | .frame r r1 r2 => gameLoop r r1 r2 s

/-- The states reachable from a freshly constructed game.  A handler that fails leaves
the state as mutated up to the failure, and later events act on that state (after a
`notANumber` failure the model no longer tracks the field that holds `NaN`). -/
inductive Reachable : State → Prop where
  | init (clientWidth : ℚ) (stored : Option Int) : Reachable (initialState clientWidth stored)
  | step {s : State} (a : Action) : Reachable s → Reachable (finalState (step s a))

/-! ## List-level description of the two sweeps -/

/-- An obstacle after `x -= speed` (line 369). -/
def Obstacle.moved (speed : ℚ) (o : Obstacle) : Obstacle :=
  { o with x := o.x - speed }

/-- The removal test of line 371: the obstacle is fully past the left edge. -/
def Obstacle.offField (o : Obstacle) : Bool :=
  decide (o.x + o.width < 0)

/-- Move every obstacle left by `speed`, then keep, in order, those still on the field. -/
def sweptObstacles (speed : ℚ) (obstacles : List Obstacle) : List Obstacle :=
  (obstacles.map (Obstacle.moved speed)).filter (fun o => !o.offField)

/-- The number of obstacles that leave the field when moved left by `speed`. -/
def removedObstacles (speed : ℚ) (obstacles : List Obstacle) : Nat :=
  (obstacles.map (Obstacle.moved speed)).countP Obstacle.offField

/-- A pickup after `x -= speed` (line 400). -/
def PowerUp.moved (speed : ℚ) (p : PowerUp) : PowerUp :=
  { p with x := p.x - speed }

/-- The removal test of line 402: the pickup is fully past the left edge. -/
def PowerUp.offField (p : PowerUp) : Bool :=
  decide (p.x + p.width < 0)

/-- Move every pickup left by `speed`, then keep, in order, those still on the field. -/
def sweptPowerUps (speed : ℚ) (powerUps : List PowerUp) : List PowerUp :=
  (powerUps.map (PowerUp.moved speed)).filter (fun p => !p.offField)

/-! ## List-level description of the achievement scan -/

/-- A locked achievement whose target metric (level for type `'level'`, score otherwise)
has reached the threshold. -/
def Achievement.reached (level score : Int) (a : Achievement) : Bool :=
  !a.unlocked && decide ((if a.isLevel then level else score) ≥ a.threshold)

/-- The achievement list after unlocking the reached ones. -/
def unlockReached (level score : Int) (achievements : List Achievement) : List Achievement :=
  achievements.map (fun a => if a.reached level score then { a with unlocked := true } else a)

/-- The notifications for the reached achievements, in list order. -/
def notifyReached (level score : Int) (achievements : List Achievement) : List Call :=
  (achievements.filter (Achievement.reached level score)).flatMap showAchievement

/-! ## State predicates -/

/-- No inventory count is negative. -/
def InventoryNonneg (s : State) : Prop :=
  0 ≤ s.powerUpInventory.speedBoost ∧ 0 ≤ s.powerUpInventory.shield ∧
    0 ≤ s.powerUpInventory.slowMo

/-! ## Concrete states used to instantiate the theorems -/

/-- A running session at scale 1 on an 800 x 200 canvas, with two obstacles that both
overlap the character's hitbox and one obstacle far to the right. -/
def collisionDemo : State :=
  { initialState 840 none with
    gameRunning := true
    score := 120
    highScore := 100
    lives := 3
    obstacles :=
      [ { x := 60, y := 160, width := 20, height := 30, type := ObstacleType.normal },
        { x := 400, y := 160, width := 20, height := 30, type := ObstacleType.normal },
        { x := 70, y := 120, width := 20, height := 70, type := ObstacleType.tall } ] }

/-- The state `collisionDemo` with the character's shield active. -/
def shieldDemo : State :=
  { collisionDemo with
    dino := { collisionDemo.dino with hasShield := true, shieldTime := 57 } }

/-- The state `collisionDemo` with a single life left. -/
def lastLifeDemo : State :=
  { collisionDemo with lives := 1 }

/-- A running `hard` session at scale 1 with score 400 (base speed 5), both timed effects
active, one obstacle and one pickup on the field. -/
def speedDemo : State :=
  { initialState 840 none with
    gameRunning := true
    difficulty := "hard"
    score := 400
    lives := 2
    effects := { speedBoost := true, slowMo := true, speedBoostTime := 200, slowMoTime := 100 }
    obstacles := [{ x := 400, y := 160, width := 20, height := 30, type := ObstacleType.normal }]
    powerUps := [{ x := 600, y := 140, width := 25, height := 25, type := Kind.shield }] }

/-- A running session at scale 1 with an empty inventory. -/
def emptyInventoryDemo : State :=
  { initialState 840 none with gameRunning := true }

/-- A running session at scale 1 holding one power-up of each kind, with the speed boost
already active for 17 more frames. -/
def inventoryDemo : State :=
  { initialState 840 none with
    gameRunning := true
    powerUpInventory := { speedBoost := 1, shield := 1, slowMo := 1 }
    effects := { speedBoost := true, slowMo := false, speedBoostTime := 17, slowMoTime := 0 } }

/-- A running session at scale 1 with score 520 at level 2, in which the first
achievement is already unlocked and the second is due. -/
def achievementDemo : State :=
  { initialState 840 none with
    gameRunning := true
    score := 520
    level := 2
    achievements :=
      [ ⟨"first100", "Getting Started", "Score 100 points", 100, true, false⟩,
        ⟨"first500", "Warming Up", "Score 500 points", 500, false, false⟩,
        ⟨"first1000", "Dino Master", "Score 1000 points", 1000, false, false⟩,
        ⟨"level5", "Survivor", "Reach level 5", 5, false, true⟩ ] }

/-- A finished session (game over, not running) of the `hard` profile, with leftovers of
the previous run: obstacles, a pickup, active effects and the grace shield. -/
def gameOverDemo : State :=
  { initialState 840 none with
    gameOver := true
    difficulty := "hard"
    score := 730
    level := 3
    lives := 0
    obstacleTimer := 12
    powerUpTimer := 345
    effects := { speedBoost := true, slowMo := true, speedBoostTime := 40, slowMoTime := 9 }
    dino := { (initialState 840 none).dino with hasShield := true, shieldTime := 88 }
    obstacles := [{ x := 60, y := 160, width := 20, height := 30, type := ObstacleType.normal }]
    powerUps := [{ x := 600, y := 140, width := 25, height := 25, type := Kind.shield }] }

/-- A running session at scale 1 with three lives, paused, with an airborne character,
entities on the field and both timed effects active. -/
def pausedDemo : State :=
  { speedDemo with
    gamePaused := true
    dino := { speedDemo.dino with y := 100, jumping := true, jumpVelocity := -3,
                                  hasShield := true, shieldTime := 40 } }

/-- A freshly constructed game at scale 1, on the start screen (not running, not over). -/
def startScreenDemo : State :=
  initialState 840 none

/-- The running session `collisionDemo` after the duck handler: the character is on the
ground and ducking. -/
def duckDemo : State :=
  duck collisionDemo

/-- A running session at scale 1 in which two pickups (a shield at index 0, a slow-mo at
index 2) overlap the character's box and one pickup is far to the right. -/
def pickupDemo : State :=
  { initialState 840 none with
    gameRunning := true
    powerUpInventory := { speedBoost := 4, shield := 1, slowMo := 2 }
    powerUps :=
      [ { x := 60, y := 140, width := 25, height := 25, type := Kind.shield },
        { x := 500, y := 140, width := 25, height := 25, type := Kind.speedBoost },
        { x := 70, y := 140, width := 25, height := 25, type := Kind.slowMo } ] }

/-- The state `t` is reached from `s` by events of one session: no event on the way calls
`startGame`.  The only event that can call it is `jump`, and it does not when the session
is running and not over. -/
inductive InSession (s : State) : State → Prop where
  | refl : InSession s s
  | step {t : State} (a : Action) :
      InSession s t →
      (a = Action.jump → t.gameRunning = true ∧ t.gameOver = false) →
      InSession s (finalState (step t a))

/-- A running session at scale 1 in which both timed effects were just activated. -/
def effectsDemo : State :=
  { initialState 840 none with
    gameRunning := true
    effects := { speedBoost := true, slowMo := true, speedBoostTime := 300, slowMoTime := 300 } }

/-- A running session at scale 1 whose power-up timer stands at 400: the next increment
passes the dwell. -/
def dwellDemo : State :=
  { initialState 840 none with gameRunning := true, powerUpTimer := 400 }

/-- The rectangle of an obstacle, as a pickup of some kind: the two overlap tests are
compared on the same rectangle. -/
def Obstacle.asPowerUp (o : Obstacle) (type : Kind) : PowerUp :=
  { x := o.x, y := o.y, width := o.width, height := o.height, type := type }

/-- The session-state invariant: the run and over flags are never both set, a paused
session is running, and a running session has at least one life. -/
def SessionInvariant (s : State) : Prop :=
  ¬ (s.gameRunning = true ∧ s.gameOver = true) ∧
  (s.gamePaused = true → s.gameRunning = true) ∧
  (s.gameRunning = true → 1 ≤ s.lives)

/-- The selected difficulty is one of the four profiles. -/
def ValidDifficulty (s : State) : Prop :=
  ∃ settings, difficultySettings s.difficulty = some settings

/-- The states reachable from a freshly constructed game by frames and input events in
which the difficulty selector only delivers one of the four profiles. -/
inductive ReachableValid : State → Prop where
  | init (clientWidth : ℚ) (stored : Option Int) :
      ReachableValid (initialState clientWidth stored)
  | step {s : State} (a : Action) :
      ReachableValid s →
      (∀ value, a = Action.selectDifficulty value →
        ∃ settings, difficultySettings value = some settings) →
      ReachableValid (finalState (step s a))

/-- A finished session at scale 1 whose character died in the air while ducking was
held, with two collected power-ups left and a high score of 900. -/
def midJumpOverDemo : State :=
  { initialState 840 (some 900) with
    gameOver := true
    score := 730
    lives := 0
    powerUpInventory := { speedBoost := 1, shield := 0, slowMo := 1 }
    dino := { (initialState 840 (some 900)).dino with
              y := 80, jumping := true, jumpVelocity := -3, ducking := true, height := 25 } }

/-- The running session `collisionDemo` with the character ducking at rest, 15 below
ground level (scale 1). -/
def duckedDemo : State :=
  { collisionDemo with
    dino := { collisionDemo.dino with y := 165, ducking := true, height := 25 } }

/-- A running `normal` session at scale 1 with score 0, whose speeds are as recomputed
(base speed 3, game speed 3), holding one speed boost, with one obstacle at `x = 400`. -/
def boostReadyDemo : State :=
  { initialState 840 none with
    gameRunning := true
    powerUpInventory := { speedBoost := 1, shield := 0, slowMo := 0 }
    obstacles := [{ x := 400, y := 160, width := 20, height := 30, type := ObstacleType.normal }] }

/-- The session `boostReadyDemo` right after the speed boost was activated between two
frames. -/
def boostLagDemo : State :=
  usePowerUp Kind.speedBoost boostReadyDemo

/-! # Theorems -/

/-! ## The canvas of the concrete states -/

/-- A container 840 wide gives the full 800 x 200 canvas, hence scale 1. -/
theorem resizeCanvas_840 : resizeCanvas 840 = (800, 200) := by
  norm_num [resizeCanvas, canvasAttribute]

/-! ## Collision loops -/

/-- The obstacle loop either finds no hit among the inspected indices and returns the
state unchanged, or resolves the hit of largest index, once. -/
theorem obstacleCollisionLoop_cases (s : State) :
    ∀ n, n ≤ s.obstacles.length →
      (obstacleCollisionLoop n s = s ∧
        ∀ j o, j < n → s.obstacles[j]? = some o → hitsObstacle s.dino s.scale o = false) ∨
      (∃ i o, i < n ∧ s.obstacles[i]? = some o ∧ hitsObstacle s.dino s.scale o = true ∧
        (∀ j o2, i < j → j < n → s.obstacles[j]? = some o2 →
          hitsObstacle s.dino s.scale o2 = false) ∧
        obstacleCollisionLoop n s = resolveObstacleHit i s) := by
  intro n
  induction n with
  | zero =>
    intro _
    left
    exact ⟨rfl, fun j o hj => absurd hj (Nat.not_lt_zero j)⟩
  | succ i ih =>
    intro hn
    have hi : i < s.obstacles.length := hn
    have hget : s.obstacles[i]? = some s.obstacles[i] := List.getElem?_eq_getElem hi
    by_cases hhit : hitsObstacle s.dino s.scale s.obstacles[i] = true
    · right
      refine ⟨i, s.obstacles[i], Nat.lt_succ_self i, hget, hhit, ?_, ?_⟩
      · intro j o2 h1 h2
        omega
      · simp [obstacleCollisionLoop, hget, hhit]
    · have hstep : obstacleCollisionLoop (i + 1) s = obstacleCollisionLoop i s := by
        simp [obstacleCollisionLoop, hget, hhit]
      have hfalse : hitsObstacle s.dino s.scale s.obstacles[i] = false := by
        simpa using hhit
      rcases ih (Nat.le_of_lt hi) with ⟨heq, hno⟩ | ⟨k, o, hk, hko, hkhit, hlater, heq⟩
      · left
        refine ⟨hstep.trans heq, ?_⟩
        intro j o hj hjo
        rcases Nat.lt_succ_iff_lt_or_eq.mp hj with hlt | rfl
        · exact hno j o hlt hjo
        · rw [hget] at hjo
          cases hjo
          exact hfalse
      · right
        refine ⟨k, o, Nat.lt_succ_of_lt hk, hko, hkhit, ?_, hstep.trans heq⟩
        intro j o2 h1 h2 hjo
        rcases Nat.lt_succ_iff_lt_or_eq.mp h2 with hlt | rfl
        · exact hlater j o2 h1 hlt hjo
        · rw [hget] at hjo
          cases hjo
          exact hfalse

/-- When some obstacle overlaps the hitbox, the full obstacle loop resolves the hit of
largest index. -/
theorem obstacleCollisionLoop_hit (s : State)
    (h : ∃ o ∈ s.obstacles, hitsObstacle s.dino s.scale o = true) :
    ∃ i o, s.obstacles[i]? = some o ∧ hitsObstacle s.dino s.scale o = true ∧
      (∀ j o2, i < j → s.obstacles[j]? = some o2 → hitsObstacle s.dino s.scale o2 = false) ∧
      obstacleCollisionLoop s.obstacles.length s = resolveObstacleHit i s := by
  rcases obstacleCollisionLoop_cases s s.obstacles.length (Nat.le_refl _) with
    ⟨_, hno⟩ | ⟨i, o, _, hio, hhit, hlater, heq⟩
  · obtain ⟨o, hmem, ho⟩ := h
    obtain ⟨j, hj, hjo⟩ := List.getElem_of_mem hmem
    have := hno j o hj (by rw [List.getElem?_eq_getElem hj, hjo])
    rw [this] at ho
    cases ho
  · refine ⟨i, o, hio, hhit, ?_, heq⟩
    intro j o2 hij hjo
    have hj : j < s.obstacles.length := by
      by_contra hge
      rw [List.getElem?_eq_none (Nat.le_of_not_lt hge)] at hjo
      cases hjo
    exact hlater j o2 hij hj hjo

/-- The pickup loop returns the state unchanged or collects exactly one overlapping
pickup. -/
theorem powerUpCollisionLoop_cases (s : State) :
    ∀ n, n ≤ s.powerUps.length →
      (powerUpCollisionLoop n s = s ∧
        ∀ j p, j < n → s.powerUps[j]? = some p → hitsPowerUp s.dino p = false) ∨
      (∃ i p, i < n ∧ s.powerUps[i]? = some p ∧ hitsPowerUp s.dino p = true ∧
        (∀ j p2, i < j → j < n → s.powerUps[j]? = some p2 → hitsPowerUp s.dino p2 = false) ∧
        powerUpCollisionLoop n s = collectPowerUp i p s) := by
  intro n
  induction n with
  | zero =>
    intro _
    left
    exact ⟨rfl, fun j p hj => absurd hj (Nat.not_lt_zero j)⟩
  | succ i ih =>
    intro hn
    have hi : i < s.powerUps.length := hn
    have hget : s.powerUps[i]? = some s.powerUps[i] := List.getElem?_eq_getElem hi
    by_cases hhit : hitsPowerUp s.dino s.powerUps[i] = true
    · right
      refine ⟨i, s.powerUps[i], Nat.lt_succ_self i, hget, hhit, ?_, ?_⟩
      · intro j p2 h1 h2
        omega
      · simp [powerUpCollisionLoop, hget, hhit]
    · have hstep : powerUpCollisionLoop (i + 1) s = powerUpCollisionLoop i s := by
        simp [powerUpCollisionLoop, hget, hhit]
      have hfalse : hitsPowerUp s.dino s.powerUps[i] = false := by
        simpa using hhit
      rcases ih (Nat.le_of_lt hi) with ⟨heq, hno⟩ | ⟨k, p, hk, hkp, hkhit, hlater, heq⟩
      · left
        refine ⟨hstep.trans heq, ?_⟩
        intro j p hj hjp
        rcases Nat.lt_succ_iff_lt_or_eq.mp hj with hlt | rfl
        · exact hno j p hlt hjp
        · rw [hget] at hjp
          cases hjp
          exact hfalse
      · right
        refine ⟨k, p, Nat.lt_succ_of_lt hk, hkp, hkhit, ?_, hstep.trans heq⟩
        intro j p2 h1 h2 hjp
        rcases Nat.lt_succ_iff_lt_or_eq.mp h2 with hlt | rfl
        · exact hlater j p2 h1 hlt hjp
        · rw [hget] at hjp
          cases hjp
          exact hfalse

/-- The pickup loop changes at most the inventory, the pickup list and the log, and
adds no `hit` cue. -/
theorem powerUpCollisionLoop_frame (n : Nat) (s : State) (hn : n ≤ s.powerUps.length) :
    (powerUpCollisionLoop n s).lives = s.lives ∧
    (powerUpCollisionLoop n s).score = s.score ∧
    (powerUpCollisionLoop n s).gameRunning = s.gameRunning ∧
    (powerUpCollisionLoop n s).gameOver = s.gameOver ∧
    (powerUpCollisionLoop n s).dino = s.dino ∧
    (powerUpCollisionLoop n s).obstacles = s.obstacles ∧
    (powerUpCollisionLoop n s).achievements = s.achievements ∧
    (powerUpCollisionLoop n s).log.count (Call.playSound Cue.hit) =
      s.log.count (Call.playSound Cue.hit) := by
  rcases powerUpCollisionLoop_cases s n hn with ⟨heq, _⟩ | ⟨i, p, _, _, _, _, heq⟩
  · rw [heq]
    simp
  · rw [heq]
    simp [collectPowerUp, List.count_append]

/-! ## Collision outcome -/

/-- C1: in an unpaused state without shield in which at least one obstacle overlaps the
inset hitbox, `checkCollisions` decrements `lives` by exactly 1 and calls `loseLife`
exactly once (one `hit` cue is played), however many obstacles overlap.  The running
flag and `lives > 0` are not needed for this. -/
theorem C1_collision_loses_exactly_one_life (s : State)
    (hpaused : s.gamePaused = false) (hshield : s.dino.hasShield = false)
    (hhit : ∃ o ∈ s.obstacles, hitsObstacle s.dino s.scale o = true) :
    (checkCollisions s).lives = s.lives - 1 ∧
    (checkCollisions s).log.count (Call.playSound Cue.hit) =
      s.log.count (Call.playSound Cue.hit) + 1 ∧
    (checkCollisions s).obstacles = s.obstacles := by
  obtain ⟨i, o, _, _, _, heq⟩ := obstacleCollisionLoop_hit s hhit
  have hres : obstacleCollisionLoop s.obstacles.length s = loseLife s := by
    rw [heq]
    simp [resolveObstacleHit, hshield]
  have hframe := powerUpCollisionLoop_frame (loseLife s).powerUps.length (loseLife s)
    (Nat.le_refl _)
  obtain ⟨hl, _, _, _, _, ho, _, hc⟩ := hframe
  have hcc : checkCollisions s =
      powerUpCollisionLoop (loseLife s).powerUps.length (loseLife s) := by
    simp [checkCollisions, hpaused, hres]
  rw [hcc, hl, hc, ho]
  refine ⟨?_, ?_, ?_⟩
  · unfold loseLife
    simp only []
    split_ifs <;> rfl
  · unfold loseLife
    simp only []
    split_ifs <;> simp [List.count_append, List.count_cons]
  · unfold loseLife
    simp only []
    split_ifs <;> rfl

/-- Witness for C1: two obstacles overlap the hitbox of `collisionDemo`. -/
theorem C1_collision_loses_exactly_one_life_witness :
    (checkCollisions collisionDemo).lives = collisionDemo.lives - 1 ∧
    (checkCollisions collisionDemo).log.count (Call.playSound Cue.hit) =
      collisionDemo.log.count (Call.playSound Cue.hit) + 1 ∧
    (checkCollisions collisionDemo).obstacles = collisionDemo.obstacles :=
  C1_collision_loses_exactly_one_life collisionDemo rfl rfl
    ⟨{ x := 60, y := 160, width := 20, height := 30, type := ObstacleType.normal },
      by simp [collisionDemo],
      by norm_num [hitsObstacle, collisionDemo, initialState, resizeCanvas_840]⟩

/-- C2: when `loseLife` brings `lives` to 0 (or below), the session is over
(`gameOver = true`, `gameRunning = false`); the high score becomes the score exactly
when the score exceeds the previous high score and is unchanged otherwise (the storage
write happens in the first case only); replaying the game-over with the same score
leaves the high score unchanged and writes nothing. -/
theorem C2_game_over_and_high_score (s : State) (hlives : s.lives ≤ 1) :
    (loseLife s).lives = s.lives - 1 ∧
    (loseLife s).gameOver = true ∧
    (loseLife s).gameRunning = false ∧
    (loseLife s).score = s.score ∧
    (loseLife s).highScore = (if s.score > s.highScore then s.score else s.highScore) ∧
    (loseLife s).log = s.log ++ [Call.playSound Cue.hit, Call.shakeScreen] ++
      (if s.score > s.highScore then [Call.setItem s.score] else []) ∧
    (loseLife (loseLife s)).highScore = (loseLife s).highScore ∧
    (loseLife (loseLife s)).log =
      (loseLife s).log ++ [Call.playSound Cue.hit, Call.shakeScreen] := by
  have h1 : s.lives - 1 ≤ 0 := by omega
  have h2 : s.lives - 1 - 1 ≤ 0 := by omega
  by_cases hs : s.score > s.highScore
  · simp [loseLife, h1, h2, hs]
  · simp [loseLife, h1, h2, hs]

/-- Witness for C2: `lastLifeDemo` has one life, score 120 and high score 100. -/
theorem C2_game_over_and_high_score_witness :
    lastLifeDemo.lives ≤ 1 ∧
    (loseLife lastLifeDemo).gameOver = true ∧
    (loseLife lastLifeDemo).gameRunning = false ∧
    (loseLife lastLifeDemo).highScore = 120 ∧
    (loseLife (loseLife lastLifeDemo)).highScore = 120 := by
  have hl : lastLifeDemo.lives ≤ 1 := by decide
  have h := C2_game_over_and_high_score lastLifeDemo hl
  refine ⟨hl, h.2.1, h.2.2.1, ?_, ?_⟩
  · rw [h.2.2.2.2.1]
    decide
  · rw [h.2.2.2.2.2.2.1, h.2.2.2.2.1]
    decide

/-- C10: in an unpaused state with the shield active in which at least one obstacle
overlaps the inset hitbox, `checkCollisions` clears the shield (`hasShield = false`,
`shieldTime = 0`), removes exactly one obstacle, which overlaps the hitbox (the one of
largest index), keeping the others in order, and leaves lives, score, `gameRunning`
and `gameOver` unchanged. -/
theorem C10_shield_absorbs_hit (s : State)
    (hpaused : s.gamePaused = false) (hshield : s.dino.hasShield = true)
    (hhit : ∃ o ∈ s.obstacles, hitsObstacle s.dino s.scale o = true) :
    (checkCollisions s).dino.hasShield = false ∧
    (checkCollisions s).dino.shieldTime = 0 ∧
    (∃ i o, s.obstacles[i]? = some o ∧ hitsObstacle s.dino s.scale o = true ∧
      (∀ j o2, i < j → s.obstacles[j]? = some o2 →
        hitsObstacle s.dino s.scale o2 = false) ∧
      (checkCollisions s).obstacles = s.obstacles.eraseIdx i ∧
      (checkCollisions s).obstacles.length + 1 = s.obstacles.length) ∧
    (checkCollisions s).lives = s.lives ∧
    (checkCollisions s).score = s.score ∧
    (checkCollisions s).gameRunning = s.gameRunning ∧
    (checkCollisions s).gameOver = s.gameOver := by
  obtain ⟨i, o, hio, hio_hit, hlater, heq⟩ := obstacleCollisionLoop_hit s hhit
  have hres : obstacleCollisionLoop s.obstacles.length s =
      { s with dino := { s.dino with hasShield := false, shieldTime := 0 },
               obstacles := s.obstacles.eraseIdx i,
               log := s.log ++ [Call.playSound Cue.shield, Call.shakeScreen] } := by
    rw [heq]
    simp [resolveObstacleHit, hshield]
  have hcc : checkCollisions s =
      powerUpCollisionLoop (obstacleCollisionLoop s.obstacles.length s).powerUps.length
        (obstacleCollisionLoop s.obstacles.length s) := by
    simp [checkCollisions, hpaused]
  obtain ⟨hl, hsc, hr, hov, hd, hob, _, _⟩ :=
    powerUpCollisionLoop_frame (obstacleCollisionLoop s.obstacles.length s).powerUps.length
      (obstacleCollisionLoop s.obstacles.length s) (Nat.le_refl _)
  have hi : i < s.obstacles.length := by
    by_contra hge
    rw [List.getElem?_eq_none (Nat.le_of_not_lt hge)] at hio
    cases hio
  rw [hcc, hl, hsc, hr, hov, hd, hob, hres]
  refine ⟨rfl, rfl, ⟨i, o, hio, hio_hit, hlater, rfl, ?_⟩, rfl, rfl, rfl, rfl⟩
  simp only [List.length_eraseIdx, hi, if_true]
  omega

/-- Witness for C10: two obstacles overlap the hitbox of the shielded `shieldDemo`. -/
theorem C10_shield_absorbs_hit_witness :
    (checkCollisions shieldDemo).dino.hasShield = false ∧
    (checkCollisions shieldDemo).dino.shieldTime = 0 ∧
    (checkCollisions shieldDemo).lives = 3 := by
  have h := C10_shield_absorbs_hit shieldDemo rfl rfl
    ⟨{ x := 60, y := 160, width := 20, height := 30, type := ObstacleType.normal },
      by simp [shieldDemo, collisionDemo],
      by norm_num [hitsObstacle, shieldDemo, collisionDemo, initialState, resizeCanvas_840]⟩
  exact ⟨h.1, h.2.1, h.2.2.2.1⟩

/-! ## Difficulty engine -/

/-- The floor of an integer divided by a positive literal is integer floor division. -/
theorem floor_div_nat (n : Int) (d : Nat) : Int.floor ((n : ℚ) / (d : ℚ)) = n / (d : Int) :=
  Rat.floor_intCast_div_natCast n d

/-- The level is an integer, so `Math.floor(this.level * 10)` is `level * 10`. -/
theorem floor_level_mul_ten (level : Int) : Int.floor ((level : ℚ) * 10) = level * 10 := by
  have h : ((level : ℚ) * 10) = ((level * 10 : Int) : ℚ) := by push_cast; ring
  rw [h, Int.floor_intCast]

/-- The achievement scan changes only the achievement list and the log. -/
theorem checkAchievements_frame (s : State) :
    checkAchievements s =
      { s with achievements := (checkAchievementsLoop s.level s.score s.achievements).1,
               log := s.log ++ (checkAchievementsLoop s.level s.score s.achievements).2 } :=
  rfl

/-- The level set by an unpaused `updateGameSpeed`, whether it returns or throws. -/
theorem updateGameSpeed_level (s : State) (hpaused : s.gamePaused = false) :
    (finalState (updateGameSpeed s)).level = Int.floor ((s.score : ℚ) / 300) + 1 := by
  unfold updateGameSpeed
  simp only [hpaused, Bool.false_eq_true, if_false]
  cases difficultySettings s.difficulty with
  | none =>
    by_cases hk : s.difficulty ∈ objectPrototypeKeys <;> simp [hk, finalState, Failure.state]
  | some settings =>
    simp only [finalState, checkAchievements_frame]
    split_ifs <;> rfl

/-- C3: an unpaused `updateGameSpeed` sets `level = floor(score / 300) + 1`, for every
score and every selected difficulty (also when the method throws on an unknown
difficulty, the level is already set): the level is the integer quotient plus one, that
is `300 * (level - 1) ≤ score < 300 * level`; scores 0, 299, 300 and 899 give levels
1, 1, 2 and 3. -/
theorem C3_level_from_score (s : State) (hpaused : s.gamePaused = false) :
    (finalState (updateGameSpeed s)).level = s.score / 300 + 1 ∧
    300 * ((finalState (updateGameSpeed s)).level - 1) ≤ s.score ∧
    s.score < 300 * (finalState (updateGameSpeed s)).level ∧
    (s.score = 0 → (finalState (updateGameSpeed s)).level = 1) ∧
    (s.score = 299 → (finalState (updateGameSpeed s)).level = 1) ∧
    (s.score = 300 → (finalState (updateGameSpeed s)).level = 2) ∧
    (s.score = 899 → (finalState (updateGameSpeed s)).level = 3) := by
  have hfloor : Int.floor ((s.score : ℚ) / 300) = s.score / 300 := by
    have := floor_div_nat s.score 300
    simpa using this
  have hlevel : (finalState (updateGameSpeed s)).level = s.score / 300 + 1 := by
    rw [updateGameSpeed_level s hpaused, hfloor]
  rw [hlevel]
  refine ⟨rfl, by omega, by omega, ?_, ?_, ?_, ?_⟩ <;> intro h <;> rw [h] <;> decide

/-- Witness for C3: `collisionDemo` (score 120, unpaused) is at level 1 after the update. -/
theorem C3_level_from_score_witness :
    collisionDemo.gamePaused = false ∧
    (finalState (updateGameSpeed collisionDemo)).level = collisionDemo.score / 300 + 1 :=
  ⟨rfl, (C3_level_from_score collisionDemo rfl).1⟩

/-! ## The movement sweeps -/

/-- Sweeping a list extended by one obstacle. -/
theorem sweptObstacles_concat (speed : ℚ) (obstacles : List Obstacle) (o : Obstacle) :
    sweptObstacles speed (obstacles ++ [o]) =
      sweptObstacles speed obstacles ++
        (if o.x - speed + o.width < 0 then [] else [Obstacle.moved speed o]) := by
  by_cases h : o.x - speed + o.width < 0
  · simp [sweptObstacles, Obstacle.moved, Obstacle.offField, List.filter_append, h]
  · simp [sweptObstacles, Obstacle.moved, Obstacle.offField, List.filter_append, h]

/-- Counting the removals of a list extended by one obstacle. -/
theorem removedObstacles_concat (speed : ℚ) (obstacles : List Obstacle) (o : Obstacle) :
    removedObstacles speed (obstacles ++ [o]) =
      removedObstacles speed obstacles + (if o.x - speed + o.width < 0 then 1 else 0) := by
  by_cases h : o.x - speed + o.width < 0
  · simp [removedObstacles, Obstacle.moved, Obstacle.offField, List.countP_append, h]
  · simp [removedObstacles, Obstacle.moved, Obstacle.offField, List.countP_append, h]

/-- Removing the entry at `i` keeps the first `i` entries and drops one more. -/
theorem eraseIdx_take_drop {α : Type} (xs : List α) (i : Nat) (hi : i < xs.length) :
    (xs.eraseIdx i).take i = xs.take i ∧ (xs.eraseIdx i).drop i = xs.drop (i + 1) := by
  have hlen : (xs.take i).length = i := by
    rw [List.length_take]
    exact Nat.min_eq_left (Nat.le_of_lt hi)
  rw [List.eraseIdx_eq_take_drop_succ]
  constructor
  · rw [List.take_append_eq_append_take, hlen]
    simp
  · rw [List.drop_append_eq_append_drop, hlen]
    simp [List.drop_eq_nil_of_le, hlen]

/-- Overwriting the entry at `i` keeps the first `i` entries and the entries after `i`. -/
theorem set_take_drop {α : Type} (xs : List α) (i : Nat) (x : α) (hi : i < xs.length) :
    (xs.set i x).take i = xs.take i ∧ (xs.set i x).drop i = x :: xs.drop (i + 1) := by
  have hlen : (xs.take i).length = i := by
    rw [List.length_take]
    exact Nat.min_eq_left (Nat.le_of_lt hi)
  rw [List.set_eq_take_append_cons_drop]
  simp only [hi, if_true]
  constructor
  · rw [List.take_append_eq_append_take, hlen]
    simp
  · rw [List.drop_append_eq_append_drop, hlen]
    simp [List.drop_eq_nil_of_le, hlen]

/-- The backward obstacle loop over the first `n` entries moves each of them once, keeps
those still on the field in order, leaves the entries from `n` on untouched and adds 10
to the score per removed obstacle. -/
theorem moveObstaclesLoop_eq (speed : ℚ) :
    ∀ (n : Nat) (obstacles : List Obstacle) (score : Int), n ≤ obstacles.length →
      moveObstaclesLoop speed n (obstacles, score) =
        (sweptObstacles speed (obstacles.take n) ++ obstacles.drop n,
          score + 10 * (removedObstacles speed (obstacles.take n) : Int)) := by
  intro n
  induction n with
  | zero =>
    intro obstacles score _
    simp [moveObstaclesLoop, sweptObstacles, removedObstacles]
  | succ i ih =>
    intro obstacles score hn
    have hi : i < obstacles.length := hn
    have hget : obstacles[i]? = some obstacles[i] := List.getElem?_eq_getElem hi
    have htake : obstacles.take (i + 1) = obstacles.take i ++ [obstacles[i]] := by
      rw [List.take_succ, hget]
      rfl
    rw [htake, sweptObstacles_concat, removedObstacles_concat]
    by_cases hoff : obstacles[i].x - speed + obstacles[i].width < 0
    · have hstep : moveObstaclesLoop speed (i + 1) (obstacles, score) =
          moveObstaclesLoop speed i (obstacles.eraseIdx i, score + 10) := by
        simp [moveObstaclesLoop, hget, hoff]
      have hlen : i ≤ (obstacles.eraseIdx i).length := by
        rw [List.length_eraseIdx]
        simp only [hi, if_true]
        omega
      obtain ⟨h1, h2⟩ := eraseIdx_take_drop obstacles i hi
      rw [hstep, ih _ _ hlen, h1, h2]
      simp only [hoff, if_true, List.append_nil]
      congr 1
      push_cast
      ring
    · have hstep : moveObstaclesLoop speed (i + 1) (obstacles, score) =
          moveObstaclesLoop speed i
            (obstacles.set i (Obstacle.moved speed obstacles[i]), score) := by
        simp [moveObstaclesLoop, hget, hoff, Obstacle.moved]
      have hlen : i ≤ (obstacles.set i (Obstacle.moved speed obstacles[i])).length := by
        rw [List.length_set]
        omega
      obtain ⟨h1, h2⟩ := set_take_drop obstacles i (Obstacle.moved speed obstacles[i]) hi
      rw [hstep, ih _ _ hlen, h1, h2]
      simp only [hoff, if_false, List.append_assoc, List.singleton_append]
      simp

/-- The obstacle sweep as a list function: `moveObstacles` moves every obstacle by
`currentSpeed`, keeps those on the field in order, and scores 10 per removal. -/
theorem moveObstacles_eq (s : State) :
    moveObstacles s =
      { s with obstacles := sweptObstacles (currentSpeed s) s.obstacles,
               score := s.score + 10 * (removedObstacles (currentSpeed s) s.obstacles : Int) } := by
  unfold moveObstacles
  rw [moveObstaclesLoop_eq (currentSpeed s) s.obstacles.length s.obstacles s.score
    (Nat.le_refl _)]
  simp

/-- Sweeping a list extended by one pickup. -/
theorem sweptPowerUps_concat (speed : ℚ) (powerUps : List PowerUp) (p : PowerUp) :
    sweptPowerUps speed (powerUps ++ [p]) =
      sweptPowerUps speed powerUps ++
        (if p.x - speed + p.width < 0 then [] else [PowerUp.moved speed p]) := by
  by_cases h : p.x - speed + p.width < 0
  · simp [sweptPowerUps, PowerUp.moved, PowerUp.offField, List.filter_append, h]
  · simp [sweptPowerUps, PowerUp.moved, PowerUp.offField, List.filter_append, h]

/-- The backward pickup loop over the first `n` entries moves each of them once, keeps
those still on the field in order and leaves the entries from `n` on untouched. -/
theorem movePowerUpsLoop_eq (speed : ℚ) :
    ∀ (n : Nat) (powerUps : List PowerUp), n ≤ powerUps.length →
      movePowerUpsLoop speed n powerUps =
        sweptPowerUps speed (powerUps.take n) ++ powerUps.drop n := by
  intro n
  induction n with
  | zero =>
    intro powerUps _
    simp [movePowerUpsLoop, sweptPowerUps]
  | succ i ih =>
    intro powerUps hn
    have hi : i < powerUps.length := hn
    have hget : powerUps[i]? = some powerUps[i] := List.getElem?_eq_getElem hi
    have htake : powerUps.take (i + 1) = powerUps.take i ++ [powerUps[i]] := by
      rw [List.take_succ, hget]
      rfl
    rw [htake, sweptPowerUps_concat]
    by_cases hoff : powerUps[i].x - speed + powerUps[i].width < 0
    · have hstep : movePowerUpsLoop speed (i + 1) powerUps =
          movePowerUpsLoop speed i (powerUps.eraseIdx i) := by
        simp [movePowerUpsLoop, hget, hoff]
      have hlen : i ≤ (powerUps.eraseIdx i).length := by
        rw [List.length_eraseIdx]
        simp only [hi, if_true]
        omega
      obtain ⟨h1, h2⟩ := eraseIdx_take_drop powerUps i hi
      rw [hstep, ih _ hlen, h1, h2]
      simp only [hoff, if_true, List.append_nil]
    · have hstep : movePowerUpsLoop speed (i + 1) powerUps =
          movePowerUpsLoop speed i (powerUps.set i (PowerUp.moved speed powerUps[i])) := by
        simp [movePowerUpsLoop, hget, hoff, PowerUp.moved]
      have hlen : i ≤ (powerUps.set i (PowerUp.moved speed powerUps[i])).length := by
        rw [List.length_set]
        omega
      obtain ⟨h1, h2⟩ := set_take_drop powerUps i (PowerUp.moved speed powerUps[i]) hi
      rw [hstep, ih _ hlen, h1, h2]
      simp only [hoff, if_false, List.append_assoc, List.singleton_append]

/-- The pickup sweep as a list function: `movePowerUps` moves every pickup by
`currentSpeed` and keeps those on the field in order. -/
theorem movePowerUps_eq (s : State) :
    movePowerUps s = { s with powerUps := sweptPowerUps (currentSpeed s) s.powerUps } := by
  unfold movePowerUps
  rw [movePowerUpsLoop_eq (currentSpeed s) s.powerUps.length s.powerUps (Nat.le_refl _)]
  simp

/-- Spawning an obstacle does not change the speed of the sweep. -/
theorem currentSpeed_spawnObstacle (r : ℚ) (settings : DifficultySettings) (s : State) :
    currentSpeed (spawnObstacle r settings s) = currentSpeed s := by
  unfold spawnObstacle
  simp only []
  split_ifs <;> rfl

/-- Spawning a pickup does not change the speed of the sweep. -/
theorem currentSpeed_spawnPowerUp (r1 r2 : ℚ) (s : State) :
    currentSpeed (spawnPowerUp r1 r2 s) = currentSpeed s := by
  unfold spawnPowerUp
  simp only []
  split_ifs <;> rfl

/-! ## Spawner -/

/-- C4: an unpaused `updateObstacles` (with a selected profile `settings`) compares the
incremented obstacle timer with `max(30, obstacleFrequency - floor(level * 10))`, which
is never below 30 and is 30 for frequency 60 at level 10.  Exactly when the incremented
timer exceeds the threshold, one obstacle with `x = canvasWidth` is appended to the list
and the timer is reset to 0; otherwise nothing is appended and the timer keeps its
incremented value.  The list (with the new obstacle) is then swept by the move loop of
the same call, and the timer is not touched again. -/
theorem C4_obstacle_spawn_threshold (r : ℚ) (s : State) (settings : DifficultySettings)
    (hpaused : s.gamePaused = false)
    (hsettings : difficultySettings s.difficulty = some settings) :
    spawnThreshold settings s.level = max 30 (settings.obstacleFrequency - s.level * 10) ∧
    30 ≤ spawnThreshold settings s.level ∧
    (settings.obstacleFrequency = 60 → s.level = 10 → spawnThreshold settings s.level = 30) ∧
    updateObstacles r s = .ok (moveObstacles (spawnObstacle r settings s)) ∧
    (s.obstacleTimer + 1 > spawnThreshold settings s.level →
      (∃ o, (spawnObstacle r settings s).obstacles = s.obstacles ++ [o] ∧
        o.x = s.canvasWidth) ∧
      (spawnObstacle r settings s).obstacleTimer = 0 ∧
      (finalState (updateObstacles r s)).obstacleTimer = 0) ∧
    (finalState (updateObstacles r s)).obstacles =
      sweptObstacles (currentSpeed s) (spawnObstacle r settings s).obstacles ∧
    (¬ s.obstacleTimer + 1 > spawnThreshold settings s.level →
      (spawnObstacle r settings s).obstacles = s.obstacles ∧
      (spawnObstacle r settings s).obstacleTimer = s.obstacleTimer + 1 ∧
      (finalState (updateObstacles r s)).obstacleTimer = s.obstacleTimer + 1) := by
  have hth : spawnThreshold settings s.level =
      max 30 (settings.obstacleFrequency - s.level * 10) := by
    simp only [spawnThreshold, floor_level_mul_ten]
  have hupd : updateObstacles r s = .ok (moveObstacles (spawnObstacle r settings s)) := by
    simp [updateObstacles, hpaused, hsettings]
  refine ⟨hth, ?_, ?_, hupd, ?_, ?_, ?_⟩
  · rw [hth]
    exact le_max_left _ _
  · intro hf hl
    rw [hth, hf, hl]
    decide
  · intro hgt
    have hspawn : (spawnObstacle r settings s).obstacleTimer = 0 ∧
        ∃ o, (spawnObstacle r settings s).obstacles = s.obstacles ++ [o] ∧
          o.x = s.canvasWidth := by
      unfold spawnObstacle
      simp only [hgt, if_true]
      exact ⟨trivial, _, rfl, rfl⟩
    refine ⟨hspawn.2, hspawn.1, ?_⟩
    rw [hupd, finalState, moveObstacles_eq]
    exact hspawn.1
  · rw [hupd, finalState, moveObstacles_eq, currentSpeed_spawnObstacle]
  · intro hle
    have hspawn : spawnObstacle r settings s =
        { s with obstacleTimer := s.obstacleTimer + 1 } := by
      unfold spawnObstacle
      simp only [hle, if_false]
    refine ⟨by rw [hspawn], by rw [hspawn], ?_⟩
    rw [hupd, finalState, moveObstacles_eq, hspawn]

/-- Witness for C4: `collisionDemo` is unpaused with the `normal` profile. -/
theorem C4_obstacle_spawn_threshold_witness :
    collisionDemo.gamePaused = false ∧
    difficultySettings collisionDemo.difficulty = some ⟨1.0, 120, 0⟩ ∧
    30 ≤ spawnThreshold ⟨1.0, 120, 0⟩ collisionDemo.level :=
  ⟨rfl, by simp [difficultySettings, collisionDemo, initialState],
    (C4_obstacle_spawn_threshold 0 collisionDemo ⟨1.0, 120, 0⟩ rfl
      (by simp [difficultySettings, collisionDemo, initialState])).2.1⟩

/-! ## Effective speed -/

/-- Within one frame the obstacle sweep and the pickup sweep use one and the same speed,
the value of `currentSpeed` at the start of `updateObstacles`. -/
theorem sweeps_same_speed (r r1 r2 : ℚ) (s : State) (settings : DifficultySettings)
    (hpaused : s.gamePaused = false)
    (hsettings : difficultySettings s.difficulty = some settings) :
    ∃ s1, updateObstacles r s = .ok s1 ∧
      s1.obstacles = sweptObstacles (currentSpeed s) (spawnObstacle r settings s).obstacles ∧
      (updatePowerUps r1 r2 s1).powerUps =
        sweptPowerUps (currentSpeed s) (spawnPowerUp r1 r2 s1).powerUps := by
  refine ⟨moveObstacles (spawnObstacle r settings s), ?_, ?_, ?_⟩
  · simp [updateObstacles, hpaused, hsettings]
  · rw [moveObstacles_eq, currentSpeed_spawnObstacle]
  · have hp : (moveObstacles (spawnObstacle r settings s)).gamePaused = false := by
      rw [moveObstacles_eq]
      unfold spawnObstacle
      simp only []
      split_ifs <;> exact hpaused
    have hc : currentSpeed (moveObstacles (spawnObstacle r settings s)) = currentSpeed s := by
      rw [moveObstacles_eq]
      exact currentSpeed_spawnObstacle r settings s
    unfold updatePowerUps
    simp only [hp, Bool.false_eq_true, if_false]
    rw [movePowerUps_eq, currentSpeed_spawnPowerUp, hc]

/-- `updateDino` changes neither the pause flag, the difficulty nor the sweep speed. -/
theorem updateDino_speed (s : State) :
    (updateDino s).gamePaused = s.gamePaused ∧
    (updateDino s).difficulty = s.difficulty ∧
    currentSpeed (updateDino s) = currentSpeed s := by
  unfold updateDino
  cases hp : s.gamePaused with
  | true => simp [hp]
  | false => simp [currentSpeed]

/-- Activating the speed boost changes the flag and the timer only: the speed that the
sweeps subtract stays as it is until `updateGameSpeed` runs again. -/
theorem currentSpeed_usePowerUp_speedBoost (s : State) :
    currentSpeed (usePowerUp Kind.speedBoost s) = currentSpeed s := by
  unfold usePowerUp
  split_ifs <;> rfl

/-- C5 (amended): within one frame the obstacle sweep and the pickup sweep subtract the
same value `currentSpeed` from the `x` of every obstacle and of every pickup, namely
`gameSpeed`, times 0.3 if `slowMo` is active at that moment (first part, for any unpaused
state with profile `settings`).  `gameSpeed` is recomputed by `updateGameSpeed`, at the
end of each unpaused frame: right after it, `currentSpeed` is base speed x speed
multiplier, x 1.5 if `speedBoost` is active, then x 0.3 if `slowMo` is active; it is
2.925 for base 5, multiplier 1.3 and both effects active; it is the displacement that the
next frame (`updateDino`, `updateObstacles`, `updatePowerUps`) applies to every obstacle
and every pickup; and a speed boost activated after the recomputation leaves it
unchanged, so the boost reaches the movement only after the next recomputation. -/
theorem C5_effective_speed (r r1 r2 : ℚ) (s : State) (settings : DifficultySettings)
    (hpaused : s.gamePaused = false)
    (hsettings : difficultySettings s.difficulty = some settings) :
    (∃ s1, updateObstacles r s = .ok s1 ∧
      s1.obstacles = sweptObstacles (currentSpeed s) (spawnObstacle r settings s).obstacles ∧
      (updatePowerUps r1 r2 s1).powerUps =
        sweptPowerUps (currentSpeed s) (spawnPowerUp r1 r2 s1).powerUps) ∧
    (∃ s2, updateGameSpeed s = .ok s2 ∧
      s2.effects = s.effects ∧
      s2.baseSpeed = (3 + ((s.score / 100 : Int) : ℚ) * 0.5) * s.scale ∧
      currentSpeed s2 =
        s2.baseSpeed * settings.speedMultiplier *
          (if s2.effects.speedBoost then 1.5 else 1) *
          (if s2.effects.slowMo then 0.3 else 1) ∧
      (s2.baseSpeed = 5 → settings.speedMultiplier = 1.3 →
        s2.effects.speedBoost = true → s2.effects.slowMo = true →
        currentSpeed s2 = 2.925) ∧
      (∃ s3, updateObstacles r (updateDino s2) = .ok s3 ∧
        s3.obstacles = sweptObstacles (currentSpeed s2)
          (spawnObstacle r settings (updateDino s2)).obstacles ∧
        (updatePowerUps r1 r2 s3).powerUps =
          sweptPowerUps (currentSpeed s2) (spawnPowerUp r1 r2 s3).powerUps) ∧
      currentSpeed (usePowerUp Kind.speedBoost s2) = currentSpeed s2) := by
  constructor
  · exact sweeps_same_speed r r1 r2 s settings hpaused hsettings
  · have hfloor : Int.floor ((s.score : ℚ) / 100) = s.score / 100 := by
      have := floor_div_nat s.score 100
      simpa using this
    have hform : ∃ s2, updateGameSpeed s = .ok s2 ∧ s2.effects = s.effects ∧
        s2.baseSpeed = (3 + ((s.score / 100 : Int) : ℚ) * 0.5) * s.scale ∧
        currentSpeed s2 =
          s2.baseSpeed * settings.speedMultiplier *
            (if s2.effects.speedBoost then 1.5 else 1) *
            (if s2.effects.slowMo then 0.3 else 1) ∧
        s2.gamePaused = false ∧ s2.difficulty = s.difficulty := by
      unfold updateGameSpeed
      simp only [hpaused, hsettings, Bool.false_eq_true, if_false, checkAchievements_frame,
        hfloor]
      refine ⟨_, rfl, ?_, ?_, ?_, ?_, ?_⟩
      · split_ifs <;> rfl
      · split_ifs <;> rfl
      · unfold currentSpeed
        split_ifs <;> simp_all
      · split_ifs <;> rfl
      · split_ifs <;> rfl
    obtain ⟨s2, h1, h2, h3, h4, h5, h6⟩ := hform
    refine ⟨s2, h1, h2, h3, h4, ?_, ?_, currentSpeed_usePowerUp_speedBoost s2⟩
    · intro hb hm hsb hsm
      rw [h4, hb, hm, hsb, hsm]
      norm_num
    · obtain ⟨hd1, hd2, hd3⟩ := updateDino_speed s2
      have hnext := sweeps_same_speed r r1 r2 (updateDino s2) settings
        (hd1.trans h5) (by rw [hd2, h6]; exact hsettings)
      rw [hd3] at hnext
      exact hnext

/-- Witness for C5 (amended): on `speedDemo` (hard profile, score 400, scale 1, both effects
active) the recomputed displacement is 2.925. -/
theorem C5_effective_speed_witness :
    ∃ s2, updateGameSpeed speedDemo = .ok s2 ∧ s2.baseSpeed = 5 ∧ currentSpeed s2 = 2.925 := by
  have hset : difficultySettings speedDemo.difficulty = some ⟨1.3, 90, -1⟩ := by
    simp [difficultySettings, speedDemo]
  obtain ⟨_, s2, h1, h2, h3, _, h5, _⟩ :=
    C5_effective_speed 0 0 0 speedDemo ⟨1.3, 90, -1⟩ rfl hset
  have hb : s2.baseSpeed = 5 := by
    rw [h3]
    norm_num [speedDemo, initialState, resizeCanvas_840]
  have he1 : s2.effects.speedBoost = true := by rw [h2]; rfl
  have he2 : s2.effects.slowMo = true := by rw [h2]; rfl
  exact ⟨s2, h1, hb, h5 hb rfl he1 he2⟩

/-! ## Preservation through one event -/

/-- The outcome of `gameLoop` on a running session, as a composition of the six updates. -/
theorem gameLoop_running (r r1 r2 : ℚ) (s : State) (hrun : s.gameRunning = true) :
    gameLoop r r1 r2 s =
      (updateObstacles r (updateDino s)).bind (fun s1 =>
        updateGameSpeed (checkCollisions (updateEffects (updatePowerUps r1 r2 s1)))) := by
  simp [gameLoop, hrun, bind]

/-- Outside a running session `gameLoop` leaves the state unchanged. -/
theorem gameLoop_not_running (r r1 r2 : ℚ) (s : State) (hrun : s.gameRunning = false) :
    gameLoop r r1 r2 s = .ok s := by
  simp [gameLoop, hrun]

/-- A state property kept by each of the six updates is kept by `gameLoop`. -/
theorem gameLoop_preserves (P : State → Prop)
    (hDino : ∀ s, P s → P (updateDino s))
    (hObstacles : ∀ r s, P s → P (finalState (updateObstacles r s)))
    (hPowerUps : ∀ r1 r2 s, P s → P (updatePowerUps r1 r2 s))
    (hEffects : ∀ s, P s → P (updateEffects s))
    (hCollisions : ∀ s, P s → P (checkCollisions s))
    (hSpeed : ∀ s, P s → P (finalState (updateGameSpeed s)))
    (r r1 r2 : ℚ) (s : State) (h : P s) : P (finalState (gameLoop r r1 r2 s)) := by
  cases hrun : s.gameRunning with
  | false =>
    rw [gameLoop_not_running r r1 r2 s hrun]
    exact h
  | true =>
    rw [gameLoop_running r r1 r2 s hrun]
    have h1 := hObstacles r (updateDino s) (hDino s h)
    cases hobs : updateObstacles r (updateDino s) with
    | error e =>
      rw [hobs] at h1
      exact h1
    | ok s1 =>
      rw [hobs] at h1
      exact hSpeed _ (hCollisions _ (hEffects _ (hPowerUps r1 r2 _ h1)))

/-- The outcome of `startGame` when the selected difficulty is a profile. -/
theorem startGame_ok (s : State) (settings : DifficultySettings)
    (hsettings : difficultySettings s.difficulty = some settings) :
    startGame s = .ok
      { s with gameRunning := true, gameOver := false, gamePaused := false, score := 0,
               level := 1, lives := max 1 (3 + settings.livesBonus),
               baseSpeed := 3 * s.scale, gameSpeed := 3 * s.scale,
               obstacles := [], powerUps := [], obstacleTimer := 0, powerUpTimer := 0,
               effects := { speedBoost := false, slowMo := false,
                            speedBoostTime := 0, slowMoTime := 0 },
               dino := { s.dino with hasShield := false, shieldTime := 0,
                                     y := s.dino.groundY } } := by
  simp [startGame, resetLives, hsettings, bind, Except.bind, pure, Except.pure]

/-- The outcome of `startGame` when the selected difficulty is not a profile: the failure
in `resetLives` (a `TypeError`, or a `NaN` for an inherited member) leaves the flags,
score and level already reset. -/
theorem startGame_error (s : State) (hsettings : difficultySettings s.difficulty = none) :
    startGame s = .error
      (if s.difficulty ∈ objectPrototypeKeys then
        Failure.notANumber
          { s with gameRunning := true, gameOver := false, gamePaused := false, score := 0,
                   level := 1 }
      else
        Failure.typeError
          { s with gameRunning := true, gameOver := false, gamePaused := false, score := 0,
                   level := 1 }) := by
  by_cases hk : s.difficulty ∈ objectPrototypeKeys <;>
    simp [startGame, resetLives, hsettings, hk, bind, Except.bind]

/-- The state left by `startGame` when the selected difficulty is not a profile. -/
theorem startGame_error_state (s : State)
    (hsettings : difficultySettings s.difficulty = none) :
    finalState (startGame s) =
      { s with gameRunning := true, gameOver := false, gamePaused := false, score := 0,
               level := 1 } := by
  rw [startGame_error s hsettings]
  by_cases hk : s.difficulty ∈ objectPrototypeKeys <;> simp [hk, finalState, Failure.state]

/-- A state property kept by every handler and every update is kept by every event. -/
theorem step_preserves (P : State → Prop)
    (hStart : ∀ s, P s → P (finalState (startGame s)))
    (hFlag : ∀ s, P s → P { s with gameOver := false })
    (hJump : ∀ s, P s →
      P { s with dino := { s.dino with jumping := true, jumpVelocity := -12 * s.scale },
                 log := s.log ++ [Call.playSound Cue.jump] })
    (hDuck : ∀ s, P s → P (duck s))
    (hRelease : ∀ s, P s → P (releaseDuck s))
    (hUse : ∀ k s, P s → P (usePowerUp k s))
    (hPause : ∀ s, P s → P (togglePause s))
    (hSelect : ∀ v s, P s → P (finalState (selectDifficulty v s)))
    (hSound : ∀ s, P s → P (toggleSound s))
    (hDino : ∀ s, P s → P (updateDino s))
    (hObstacles : ∀ r s, P s → P (finalState (updateObstacles r s)))
    (hPowerUps : ∀ r1 r2 s, P s → P (updatePowerUps r1 r2 s))
    (hEffects : ∀ s, P s → P (updateEffects s))
    (hCollisions : ∀ s, P s → P (checkCollisions s))
    (hSpeed : ∀ s, P s → P (finalState (updateGameSpeed s)))
    (s : State) (a : Action) (h : P s) : P (finalState (step s a)) := by
  cases a with
  | jump =>
    show P (finalState (jump s))
    unfold jump
    split_ifs
    · exact hStart s h
    · exact hJump s h
    · exact hStart _ (hFlag s h)
    · exact h
  | duck => exact hDuck s h
  | releaseDuck => exact hRelease s h
  | usePowerUp k => exact hUse k s h
  | togglePause => exact hPause s h
  | selectDifficulty v => exact hSelect v s h
  | toggleSound => exact hSound s h
  | frame r r1 r2 =>
    exact gameLoop_preserves P hDino hObstacles hPowerUps hEffects hCollisions hSpeed
      r r1 r2 s h

/-! ## Frame conditions: inventory and achievements -/

/-- `updateDino` touches only the character. -/
theorem updateDino_frame (s : State) :
    (updateDino s).powerUpInventory = s.powerUpInventory ∧
    (updateDino s).achievements = s.achievements := by
  unfold updateDino
  by_cases hp : s.gamePaused = true
  · simp [hp]
  · simp [hp]

/-- `updateObstacles` touches neither the inventory nor the achievements. -/
theorem updateObstacles_frame (r : ℚ) (s : State) :
    (finalState (updateObstacles r s)).powerUpInventory = s.powerUpInventory ∧
    (finalState (updateObstacles r s)).achievements = s.achievements := by
  unfold updateObstacles
  by_cases hp : s.gamePaused = true
  · simp [hp, finalState]
  · cases hs : difficultySettings s.difficulty with
    | none =>
      by_cases hk : s.difficulty ∈ objectPrototypeKeys <;>
        simp [hp, hk, finalState, Failure.state, moveObstacles_eq]
    | some settings =>
      simp only [hp, if_false, finalState, moveObstacles_eq]
      unfold spawnObstacle
      simp only []
      split_ifs <;> exact ⟨rfl, rfl⟩

/-- `updatePowerUps` touches neither the inventory nor the achievements. -/
theorem updatePowerUps_frame (r1 r2 : ℚ) (s : State) :
    (updatePowerUps r1 r2 s).powerUpInventory = s.powerUpInventory ∧
    (updatePowerUps r1 r2 s).achievements = s.achievements := by
  unfold updatePowerUps
  by_cases hp : s.gamePaused = true
  · simp [hp]
  · simp only [hp, if_false, movePowerUps_eq]
    unfold spawnPowerUp
    simp only []
    split_ifs <;> exact ⟨rfl, rfl⟩

/-- `updateEffects` touches only the effects. -/
theorem updateEffects_frame (s : State) :
    (updateEffects s).powerUpInventory = s.powerUpInventory ∧
    (updateEffects s).achievements = s.achievements := by
  unfold updateEffects
  by_cases hp : s.gamePaused = true
  · simp [hp]
  · simp [hp]

/-- `loseLife` touches neither the inventory nor the achievements. -/
theorem loseLife_frame (s : State) :
    (loseLife s).powerUpInventory = s.powerUpInventory ∧
    (loseLife s).achievements = s.achievements := by
  unfold loseLife
  simp only []
  split_ifs <;> exact ⟨rfl, rfl⟩

/-- The obstacle collision loop touches neither the inventory, the pickups nor the
achievements. -/
theorem obstacleCollisionLoop_frame (n : Nat) (s : State) (hn : n ≤ s.obstacles.length) :
    (obstacleCollisionLoop n s).powerUpInventory = s.powerUpInventory ∧
    (obstacleCollisionLoop n s).achievements = s.achievements := by
  rcases obstacleCollisionLoop_cases s n hn with ⟨heq, _⟩ | ⟨i, o, _, _, _, _, heq⟩
  · rw [heq]
    exact ⟨rfl, rfl⟩
  · rw [heq]
    unfold resolveObstacleHit
    split_ifs
    · exact ⟨rfl, rfl⟩
    · exact loseLife_frame s

/-- Writing a non-negative count keeps the inventory non-negative. -/
theorem Inventory.set_nonneg (inv : Inventory) (k : Kind) (v : Int)
    (h : 0 ≤ inv.speedBoost ∧ 0 ≤ inv.shield ∧ 0 ≤ inv.slowMo) (hv : 0 ≤ v) :
    0 ≤ (inv.set k v).speedBoost ∧ 0 ≤ (inv.set k v).shield ∧ 0 ≤ (inv.set k v).slowMo := by
  cases k
  · exact ⟨hv, h.2.1, h.2.2⟩
  · exact ⟨h.1, hv, h.2.2⟩
  · exact ⟨h.1, h.2.1, hv⟩

/-- Every count read from a non-negative inventory is non-negative. -/
theorem Inventory.get_nonneg (inv : Inventory) (k : Kind)
    (h : 0 ≤ inv.speedBoost ∧ 0 ≤ inv.shield ∧ 0 ≤ inv.slowMo) : 0 ≤ inv.get k := by
  cases k
  · exact h.1
  · exact h.2.1
  · exact h.2.2

/-- `checkCollisions` keeps the inventory non-negative (a pickup adds one). -/
theorem checkCollisions_inventoryNonneg (s : State) (h : InventoryNonneg s) :
    InventoryNonneg (checkCollisions s) := by
  unfold checkCollisions
  by_cases hp : s.gamePaused = true
  · simpa [hp] using h
  · simp only [hp, if_false]
    have h1 : InventoryNonneg (obstacleCollisionLoop s.obstacles.length s) := by
      unfold InventoryNonneg
      rw [(obstacleCollisionLoop_frame _ s (Nat.le_refl _)).1]
      exact h
    generalize obstacleCollisionLoop s.obstacles.length s = t at h1
    rcases powerUpCollisionLoop_cases t t.powerUps.length (Nat.le_refl _) with
      ⟨heq, _⟩ | ⟨i, p, _, _, _, _, heq⟩
    · rw [heq]
      exact h1
    · rw [heq]
      unfold InventoryNonneg collectPowerUp
      exact Inventory.set_nonneg _ _ _ h1
        (Int.add_nonneg (Inventory.get_nonneg _ _ h1) (by decide))

/-- `checkCollisions` does not touch the achievements. -/
theorem checkCollisions_achievements (s : State) :
    (checkCollisions s).achievements = s.achievements := by
  unfold checkCollisions
  cases hp : s.gamePaused with
  | true => simp
  | false =>
    simp only [Bool.false_eq_true, if_false]
    rw [(powerUpCollisionLoop_frame _ _ (Nat.le_refl _)).2.2.2.2.2.2.1,
      (obstacleCollisionLoop_frame _ s (Nat.le_refl _)).2]

/-- `updateGameSpeed` does not touch the inventory. -/
theorem updateGameSpeed_inventory (s : State) :
    (finalState (updateGameSpeed s)).powerUpInventory = s.powerUpInventory := by
  unfold updateGameSpeed
  cases hp : s.gamePaused with
  | true => simp [finalState]
  | false =>
    cases hs : difficultySettings s.difficulty with
    | none =>
      by_cases hk : s.difficulty ∈ objectPrototypeKeys <;>
        simp [hs, hk, finalState, Failure.state]
    | some settings =>
      simp only [hs, Bool.false_eq_true, if_false, finalState, checkAchievements_frame]
      split_ifs <;> rfl

/-- `startGame` touches neither the inventory nor the achievements. -/
theorem startGame_frame (s : State) :
    (finalState (startGame s)).powerUpInventory = s.powerUpInventory ∧
    (finalState (startGame s)).achievements = s.achievements := by
  cases hs : difficultySettings s.difficulty with
  | none =>
    rw [startGame_error_state s hs]
    exact ⟨rfl, rfl⟩
  | some settings =>
    rw [startGame_ok s settings hs]
    exact ⟨rfl, rfl⟩

/-- `selectDifficulty` touches neither the inventory nor the achievements. -/
theorem selectDifficulty_frame (v : String) (s : State) :
    (finalState (selectDifficulty v s)).powerUpInventory = s.powerUpInventory ∧
    (finalState (selectDifficulty v s)).achievements = s.achievements := by
  unfold selectDifficulty resetLives
  simp only []
  cases difficultySettings v with
  | none => by_cases hk : v ∈ objectPrototypeKeys <;> simp [hk, finalState, Failure.state]
  | some settings => exact ⟨rfl, rfl⟩

/-- `usePowerUp` keeps the inventory non-negative: it decrements a positive count only. -/
theorem usePowerUp_inventoryNonneg (k : Kind) (s : State) (h : InventoryNonneg s) :
    InventoryNonneg (usePowerUp k s) := by
  unfold usePowerUp
  split_ifs with hc
  · have hpos : 0 < s.powerUpInventory.get k := by
      simp only [Bool.and_eq_true, decide_eq_true_eq] at hc
      exact hc.1.1
    have hset := Inventory.set_nonneg s.powerUpInventory k (s.powerUpInventory.get k - 1) h
      (by omega)
    cases k <;> exact hset
  · exact h

/-- `usePowerUp` does not touch the achievements. -/
theorem usePowerUp_achievements (k : Kind) (s : State) :
    (usePowerUp k s).achievements = s.achievements := by
  unfold usePowerUp
  split_ifs
  · cases k <;> rfl
  · rfl

/-! ## Power-up activation -/

/-- C6: `usePowerUp` on a state whose count of that kind is 0, or that is not running,
or that is paused, returns the state unchanged (no effect or shield activates, no count
changes, nothing is played); and in every state reachable from a freshly constructed
game no inventory count is negative. -/
theorem C6_usePowerUp_noop_and_inventory_nonneg :
    (∀ (k : Kind) (s : State),
      (s.powerUpInventory.get k = 0 ∨ s.gameRunning = false ∨ s.gamePaused = true) →
        usePowerUp k s = s) ∧
    (∀ (s : State), Reachable s → ∀ k, 0 ≤ s.powerUpInventory.get k) := by
  constructor
  · intro k s h
    unfold usePowerUp
    rcases h with h | h | h
    · simp [h]
    · simp [h]
    · simp [h]
  · intro s hs k
    have hinv : InventoryNonneg s := by
      induction hs with
      | init clientWidth stored =>
        simp [InventoryNonneg, initialState]
      | step a _ ih =>
        refine step_preserves InventoryNonneg ?_ ?_ ?_ ?_ ?_ ?_ ?_ ?_ ?_ ?_ ?_ ?_ ?_ ?_ ?_ _ a ih
        · intro s h
          unfold InventoryNonneg
          rw [(startGame_frame s).1]
          exact h
        · intro s h
          exact h
        · intro s h
          exact h
        · intro s h
          unfold duck
          split_ifs
          · exact h
          · exact h
        · intro s h
          exact h
        · exact usePowerUp_inventoryNonneg
        · intro s h
          unfold togglePause
          split_ifs
          · exact h
          · exact h
        · intro v s h
          unfold InventoryNonneg
          rw [(selectDifficulty_frame v s).1]
          exact h
        · intro s h
          exact h
        · intro s h
          unfold InventoryNonneg
          rw [(updateDino_frame s).1]
          exact h
        · intro r s h
          unfold InventoryNonneg
          rw [(updateObstacles_frame r s).1]
          exact h
        · intro r1 r2 s h
          unfold InventoryNonneg
          rw [(updatePowerUps_frame r1 r2 s).1]
          exact h
        · intro s h
          unfold InventoryNonneg
          rw [(updateEffects_frame s).1]
          exact h
        · exact checkCollisions_inventoryNonneg
        · intro s h
          unfold InventoryNonneg
          rw [updateGameSpeed_inventory s]
          exact h
    exact Inventory.get_nonneg _ k hinv

/-- Witness for C6: the speed boost on an empty inventory, and the inventory after a
jump and one frame from a fresh game. -/
theorem C6_usePowerUp_noop_and_inventory_nonneg_witness :
    usePowerUp Kind.speedBoost emptyInventoryDemo = emptyInventoryDemo ∧
    0 ≤ (finalState (step (finalState (step (initialState 840 none) Action.jump))
      (Action.frame 0 0 0))).powerUpInventory.get Kind.shield :=
  ⟨C6_usePowerUp_noop_and_inventory_nonneg.1 Kind.speedBoost emptyInventoryDemo (Or.inl rfl),
    C6_usePowerUp_noop_and_inventory_nonneg.2 _
      (Reachable.step (Action.frame 0 0 0)
        (Reachable.step Action.jump (Reachable.init 840 none))) Kind.shield⟩

/-- C7: `usePowerUp` on a running, unpaused state with a positive count of the kind
decrements that count by exactly 1, leaves the other two counts unchanged, and sets the
matching effect (the `speedBoost` or `slowMo` flag, or the character's shield) active
with remaining duration exactly 300, whatever the previous duration was; the other
effects and the rest of the character are untouched. -/
theorem C7_usePowerUp_activates (k : Kind) (s : State)
    (hrun : s.gameRunning = true) (hpaused : s.gamePaused = false)
    (hcount : 0 < s.powerUpInventory.get k) :
    (usePowerUp k s).powerUpInventory.get k = s.powerUpInventory.get k - 1 ∧
    (∀ k2, k2 ≠ k → (usePowerUp k s).powerUpInventory.get k2 = s.powerUpInventory.get k2) ∧
    (k = Kind.speedBoost →
      (usePowerUp k s).effects = { s.effects with speedBoost := true, speedBoostTime := 300 } ∧
      (usePowerUp k s).dino = s.dino) ∧
    (k = Kind.slowMo →
      (usePowerUp k s).effects = { s.effects with slowMo := true, slowMoTime := 300 } ∧
      (usePowerUp k s).dino = s.dino) ∧
    (k = Kind.shield →
      (usePowerUp k s).dino = { s.dino with hasShield := true, shieldTime := 300 } ∧
      (usePowerUp k s).effects = s.effects) := by
  have hc : (decide (s.powerUpInventory.get k > 0) && s.gameRunning && !s.gamePaused) = true := by
    simp [hrun, hpaused, hcount]
  unfold usePowerUp
  rw [if_pos hc]
  cases k
  · refine ⟨rfl, ?_, ?_, ?_, ?_⟩
    · intro k2 hk2
      cases k2
      · exact absurd rfl hk2
      · rfl
      · rfl
    · intro _; exact ⟨rfl, rfl⟩
    · intro h; cases h
    · intro h; cases h
  · refine ⟨rfl, ?_, ?_, ?_, ?_⟩
    · intro k2 hk2
      cases k2
      · rfl
      · exact absurd rfl hk2
      · rfl
    · intro h; cases h
    · intro h; cases h
    · intro _; exact ⟨rfl, rfl⟩
  · refine ⟨rfl, ?_, ?_, ?_, ?_⟩
    · intro k2 hk2
      cases k2
      · rfl
      · rfl
      · exact absurd rfl hk2
    · intro h; cases h
    · intro _; exact ⟨rfl, rfl⟩
    · intro h; cases h

/-- Witness for C7: re-activating the speed boost of `inventoryDemo`, which has 17 frames
left, sets the remaining duration to 300 (not 317) and empties that count. -/
theorem C7_usePowerUp_activates_witness :
    (usePowerUp Kind.speedBoost inventoryDemo).powerUpInventory.get Kind.speedBoost = 0 ∧
    (usePowerUp Kind.speedBoost inventoryDemo).effects.speedBoostTime = 300 := by
  have h := C7_usePowerUp_activates Kind.speedBoost inventoryDemo rfl rfl (by decide)
  refine ⟨?_, ?_⟩
  · rw [h.1]
    decide
  · rw [(h.2.2.1 rfl).1]

/-! ## Restart -/

/-- The life bonus of each of the four profiles. -/
theorem livesBonus_of_profile (difficulty : String) (settings : DifficultySettings)
    (hsettings : difficultySettings difficulty = some settings) :
    (difficulty = "easy" → settings.livesBonus = 2) ∧
    (difficulty = "normal" → settings.livesBonus = 0) ∧
    (difficulty = "hard" → settings.livesBonus = -1) ∧
    (difficulty = "extreme" → settings.livesBonus = -2) := by
  refine ⟨?_, ?_, ?_, ?_⟩ <;> intro hd <;> rw [hd] at hsettings <;>
    simp [difficultySettings] at hsettings <;> rw [← hsettings]

/-- C8: on a game-over state (over flag set, run flag clear) whose selected difficulty is
a profile, the primary action `jump` performs `restartGame`, hence `startGame`, and
returns a state with `gameRunning = true`, `gameOver = false`, `gamePaused = false`,
score 0, level 1, lives `max(1, 3 + livesBonus)` (5, 3, 2, 1 for easy, normal, hard,
extreme), empty obstacle and pickup lists, both spawn timers 0, both timed effects
inactive with remaining time 0, and the shield inactive with `shieldTime = 0`. -/
theorem C8_restart_resets_session (s : State) (settings : DifficultySettings)
    (hover : s.gameOver = true) (hrun : s.gameRunning = false)
    (hsettings : difficultySettings s.difficulty = some settings) :
    ∃ s2, jump s = .ok s2 ∧ restartGame s = .ok s2 ∧
      startGame { s with gameOver := false } = .ok s2 ∧
      s2.gameRunning = true ∧ s2.gameOver = false ∧ s2.gamePaused = false ∧
      s2.score = 0 ∧ s2.level = 1 ∧
      s2.lives = max 1 (3 + settings.livesBonus) ∧
      (s.difficulty = "easy" → s2.lives = 5) ∧
      (s.difficulty = "normal" → s2.lives = 3) ∧
      (s.difficulty = "hard" → s2.lives = 2) ∧
      (s.difficulty = "extreme" → s2.lives = 1) ∧
      s2.obstacles = [] ∧ s2.powerUps = [] ∧
      s2.obstacleTimer = 0 ∧ s2.powerUpTimer = 0 ∧
      s2.effects = { speedBoost := false, slowMo := false,
                     speedBoostTime := 0, slowMoTime := 0 } ∧
      s2.dino.hasShield = false ∧ s2.dino.shieldTime = 0 := by
  have hjump : jump s = restartGame s := by
    simp [jump, hover, hrun]
  have hstart := startGame_ok { s with gameOver := false } settings hsettings
  refine ⟨_, hjump.trans hstart, hstart, hstart, rfl, rfl, rfl, rfl, rfl, rfl,
    ?_, ?_, ?_, ?_, rfl, rfl, rfl, rfl, rfl, rfl, rfl⟩
  · intro hd
    show max 1 (3 + settings.livesBonus) = 5
    rw [(livesBonus_of_profile s.difficulty settings hsettings).1 hd]
    decide
  · intro hd
    show max 1 (3 + settings.livesBonus) = 3
    rw [(livesBonus_of_profile s.difficulty settings hsettings).2.1 hd]
    decide
  · intro hd
    show max 1 (3 + settings.livesBonus) = 2
    rw [(livesBonus_of_profile s.difficulty settings hsettings).2.2.1 hd]
    decide
  · intro hd
    show max 1 (3 + settings.livesBonus) = 1
    rw [(livesBonus_of_profile s.difficulty settings hsettings).2.2.2 hd]
    decide

/-- Witness for C8: restarting `gameOverDemo` (hard profile, grace shield and effects
still set) yields a clean running session with 2 lives. -/
theorem C8_restart_resets_session_witness :
    ∃ s2, jump gameOverDemo = .ok s2 ∧ s2.gameRunning = true ∧ s2.score = 0 ∧
      s2.lives = 2 ∧ s2.obstacles = [] ∧ s2.dino.hasShield = false ∧
      s2.dino.shieldTime = 0 := by
  have hset : difficultySettings gameOverDemo.difficulty = some ⟨1.3, 90, -1⟩ := by
    simp [difficultySettings, gameOverDemo]
  obtain ⟨s2, h⟩ := C8_restart_resets_session gameOverDemo ⟨1.3, 90, -1⟩ rfl rfl hset
  exact ⟨s2, h.1, h.2.2.2.1, h.2.2.2.2.2.2.1, h.2.2.2.2.2.2.2.2.2.2.2.1 rfl,
    h.2.2.2.2.2.2.2.2.2.2.2.2.2.1, h.2.2.2.2.2.2.2.2.2.2.2.2.2.2.2.2.2.2.1,
    h.2.2.2.2.2.2.2.2.2.2.2.2.2.2.2.2.2.2.2⟩

/-! ## Achievements -/

/-- The achievement loop unlocks the reached achievements and notifies each of them once. -/
theorem checkAchievementsLoop_eq (level score : Int) (achievements : List Achievement) :
    checkAchievementsLoop level score achievements =
      (unlockReached level score achievements, notifyReached level score achievements) := by
  induction achievements with
  | nil => rfl
  | cons a rest ih =>
    unfold checkAchievementsLoop
    rw [ih]
    cases hu : a.unlocked with
    | true =>
      simp [unlockReached, notifyReached, Achievement.reached, hu]
    | false =>
      by_cases hv : (if a.isLevel then level else score) ≥ a.threshold
      · simp [unlockReached, notifyReached, Achievement.reached, hu, hv,
          List.filter_cons, List.flatMap_cons]
      · simp [unlockReached, notifyReached, Achievement.reached, hu, hv,
          List.filter_cons]

/-- An unlocked achievement is not reached again. -/
theorem Achievement.reached_of_unlocked (level score : Int) (a : Achievement)
    (h : a.unlocked = true) : a.reached level score = false := by
  simp [Achievement.reached, h]

/-- After the scan no achievement is reached any more, for the same level and score. -/
theorem unlockReached_not_reached (level score : Int) (achievements : List Achievement) :
    ∀ a ∈ unlockReached level score achievements, a.reached level score = false := by
  intro a ha
  unfold unlockReached at ha
  rw [List.mem_map] at ha
  obtain ⟨b, _, hb⟩ := ha
  by_cases hr : b.reached level score = true
  · rw [if_pos hr] at hb
    rw [← hb]
    exact Achievement.reached_of_unlocked level score _ rfl
  · rw [if_neg hr] at hb
    rw [← hb]
    simpa using hr

/-- Scanning a list in which nothing is reached changes nothing and notifies nothing. -/
theorem unlockReached_of_none_reached (level score : Int) (achievements : List Achievement)
    (h : ∀ a ∈ achievements, a.reached level score = false) :
    unlockReached level score achievements = achievements ∧
    notifyReached level score achievements = [] := by
  constructor
  · unfold unlockReached
    conv_rhs => rw [← List.map_id achievements]
    apply List.map_congr_left
    intro a ha
    simp [h a ha]
  · unfold notifyReached
    have : achievements.filter (Achievement.reached level score) = [] := by
      rw [List.filter_eq_nil_iff]
      intro a ha
      simp [h a ha]
    rw [this]
    rfl

/-- The scan keeps every unlocked entry, at its position. -/
theorem unlockReached_keeps (level score : Int) (achievements : List Achievement)
    (i : Nat) (x : Achievement) (hx : achievements[i]? = some x) (hu : x.unlocked = true) :
    (unlockReached level score achievements)[i]? = some x := by
  unfold unlockReached
  rw [List.getElem?_map, hx]
  simp [Achievement.reached_of_unlocked level score x hu]

/-- `updateGameSpeed` keeps every unlocked achievement, at its position. -/
theorem updateGameSpeed_keeps_unlocked (s : State) (i : Nat) (x : Achievement)
    (hx : s.achievements[i]? = some x) (hu : x.unlocked = true) :
    (finalState (updateGameSpeed s)).achievements[i]? = some x := by
  unfold updateGameSpeed
  cases hp : s.gamePaused with
  | true => simpa [finalState] using hx
  | false =>
    cases hs : difficultySettings s.difficulty with
    | none =>
      by_cases hk : s.difficulty ∈ objectPrototypeKeys <;>
        simpa [hs, hk, finalState, Failure.state] using hx
    | some settings =>
      simp only [hs, Bool.false_eq_true, if_false, finalState, checkAchievements_frame,
        checkAchievementsLoop_eq]
      split_ifs <;> exact unlockReached_keeps _ _ _ i x hx hu

/-- C9: `checkAchievements` sets `unlocked` on exactly the locked achievements whose
target metric (level for type `'level'`, score otherwise) is at least the threshold and
fires one notification for each of them, in order; an unlocked achievement is never
changed; running it again changes nothing and fires nothing; and no event (frame or
input handler), nor `startGame` or `restartGame`, changes an unlocked achievement, so
an unlocked flag is never set back to false. -/
theorem C9_achievements_unlock_once :
    (∀ s : State,
      (checkAchievements s).achievements = unlockReached s.level s.score s.achievements ∧
      (checkAchievements s).log = s.log ++ notifyReached s.level s.score s.achievements ∧
      (∀ (i : Nat) (x : Achievement), s.achievements[i]? = some x → x.unlocked = true →
        (checkAchievements s).achievements[i]? = some x) ∧
      checkAchievements (checkAchievements s) = checkAchievements s) ∧
    (∀ (s : State) (a : Action) (i : Nat) (x : Achievement),
      s.achievements[i]? = some x → x.unlocked = true →
        (finalState (step s a)).achievements[i]? = some x) ∧
    (∀ (s : State) (i : Nat) (x : Achievement),
      s.achievements[i]? = some x → x.unlocked = true →
        (finalState (startGame s)).achievements[i]? = some x ∧
        (finalState (restartGame s)).achievements[i]? = some x) := by
  refine ⟨?_, ?_, ?_⟩
  · intro s
    have h1 : (checkAchievements s).achievements =
        unlockReached s.level s.score s.achievements := by
      rw [checkAchievements_frame, checkAchievementsLoop_eq]
    have h2 : (checkAchievements s).log =
        s.log ++ notifyReached s.level s.score s.achievements := by
      rw [checkAchievements_frame, checkAchievementsLoop_eq]
    refine ⟨h1, h2, ?_, ?_⟩
    · intro i x hx hu
      rw [h1]
      exact unlockReached_keeps _ _ _ i x hx hu
    · obtain ⟨h3, h4⟩ := unlockReached_of_none_reached s.level s.score
        (unlockReached s.level s.score s.achievements)
        (unlockReached_not_reached s.level s.score s.achievements)
      rw [checkAchievements_frame (checkAchievements s)]
      simp only [checkAchievements_frame, checkAchievementsLoop_eq, h3, h4, List.append_nil]
  · intro s a i x hx hu
    refine step_preserves (fun t => t.achievements[i]? = some x)
      ?_ ?_ ?_ ?_ ?_ ?_ ?_ ?_ ?_ ?_ ?_ ?_ ?_ ?_ ?_ s a hx
    · intro t h
      show (finalState (startGame t)).achievements[i]? = some x
      rw [(startGame_frame t).2]
      exact h
    · intro t h
      exact h
    · intro t h
      exact h
    · intro t h
      show (duck t).achievements[i]? = some x
      unfold duck
      split_ifs
      · exact h
      · exact h
    · intro t h
      exact h
    · intro k t h
      show (usePowerUp k t).achievements[i]? = some x
      rw [usePowerUp_achievements]
      exact h
    · intro t h
      show (togglePause t).achievements[i]? = some x
      unfold togglePause
      split_ifs
      · exact h
      · exact h
    · intro v t h
      show (finalState (selectDifficulty v t)).achievements[i]? = some x
      rw [(selectDifficulty_frame v t).2]
      exact h
    · intro t h
      exact h
    · intro t h
      show (updateDino t).achievements[i]? = some x
      rw [(updateDino_frame t).2]
      exact h
    · intro r t h
      show (finalState (updateObstacles r t)).achievements[i]? = some x
      rw [(updateObstacles_frame r t).2]
      exact h
    · intro r1 r2 t h
      show (updatePowerUps r1 r2 t).achievements[i]? = some x
      rw [(updatePowerUps_frame r1 r2 t).2]
      exact h
    · intro t h
      show (updateEffects t).achievements[i]? = some x
      rw [(updateEffects_frame t).2]
      exact h
    · intro t h
      show (checkCollisions t).achievements[i]? = some x
      rw [checkCollisions_achievements]
      exact h
    · intro t h
      exact updateGameSpeed_keeps_unlocked t i x h hu
  · intro s i x hx _
    constructor
    · rw [(startGame_frame s).2]
      exact hx
    · unfold restartGame
      rw [(startGame_frame _).2]
      exact hx

/-- Witness for C9: the unlocked first achievement of `achievementDemo` survives the
scan and a jump. -/
theorem C9_achievements_unlock_once_witness :
    (checkAchievements achievementDemo).achievements[0]? =
      some ⟨"first100", "Getting Started", "Score 100 points", 100, true, false⟩ ∧
    (finalState (step achievementDemo Action.jump)).achievements[0]? =
      some ⟨"first100", "Getting Started", "Score 100 points", 100, true, false⟩ :=
  ⟨(C9_achievements_unlock_once.1 achievementDemo).2.2.1 0 _ rfl rfl,
    C9_achievements_unlock_once.2.1 achievementDemo Action.jump 0 _ rfl rfl⟩

/-! ## Life loss, primary action, pause -/

/-- C11: for a state with at least 2 lives, `loseLife` yields `lives - 1`, leaves
`gameRunning` and `gameOver` as they are (a running session keeps running and is not
over), leaves the high score unchanged and writes nothing to storage, and grants the
grace shield `hasShield = true`, `shieldTime = 120`; when `checkCollisions` gets there
through an obstacle hit without shield, the obstacle list is unchanged, so the obstacle
that was hit stays in it. -/
theorem C11_nonfatal_hit_grants_grace_shield (s : State) (hlives : 2 ≤ s.lives) :
    (loseLife s).lives = s.lives - 1 ∧
    (loseLife s).gameRunning = s.gameRunning ∧
    (loseLife s).gameOver = s.gameOver ∧
    (s.gameRunning = true → s.gameOver = false →
      (loseLife s).gameRunning = true ∧ (loseLife s).gameOver = false) ∧
    (loseLife s).highScore = s.highScore ∧
    (loseLife s).log = s.log ++ [Call.playSound Cue.hit, Call.shakeScreen] ∧
    (loseLife s).dino.hasShield = true ∧
    (loseLife s).dino.shieldTime = 120 ∧
    (loseLife s).obstacles = s.obstacles ∧
    (s.gamePaused = false → s.dino.hasShield = false →
      (∃ o ∈ s.obstacles, hitsObstacle s.dino s.scale o = true) →
      (checkCollisions s).obstacles = s.obstacles ∧
      (checkCollisions s).lives = s.lives - 1 ∧
      (checkCollisions s).dino.hasShield = true ∧
      (checkCollisions s).dino.shieldTime = 120) := by
  have h1 : ¬ (s.lives - 1 ≤ 0) := by omega
  have hl : loseLife s =
      { s with lives := s.lives - 1,
               log := s.log ++ [Call.playSound Cue.hit, Call.shakeScreen],
               dino := { s.dino with hasShield := true, shieldTime := 120 } } := by
    simp [loseLife, h1]
  refine ⟨by rw [hl], by rw [hl], by rw [hl], ?_, by rw [hl], by rw [hl], by rw [hl],
    by rw [hl], by rw [hl], ?_⟩
  · intro hr ho
    rw [hl]
    exact ⟨hr, ho⟩
  · intro hpaused hshield hhit
    obtain ⟨i, o, _, _, _, heq⟩ := obstacleCollisionLoop_hit s hhit
    have hres : obstacleCollisionLoop s.obstacles.length s = loseLife s := by
      rw [heq]
      simp [resolveObstacleHit, hshield]
    have hcc : checkCollisions s =
        powerUpCollisionLoop (loseLife s).powerUps.length (loseLife s) := by
      simp [checkCollisions, hpaused, hres]
    obtain ⟨hlv, _, _, _, hd, ho, _, _⟩ :=
      powerUpCollisionLoop_frame (loseLife s).powerUps.length (loseLife s) (Nat.le_refl _)
    rw [hcc, hlv, hd, ho, hl]
    exact ⟨rfl, rfl, rfl, rfl⟩

/-- Witness for C11: `collisionDemo` has three lives, no shield and an obstacle on the
character. -/
theorem C11_nonfatal_hit_grants_grace_shield_witness :
    (loseLife collisionDemo).lives = 2 ∧
    (loseLife collisionDemo).dino.shieldTime = 120 ∧
    (checkCollisions collisionDemo).obstacles = collisionDemo.obstacles := by
  have h := C11_nonfatal_hit_grants_grace_shield collisionDemo (by decide)
  refine ⟨?_, h.2.2.2.2.2.2.2.1, ?_⟩
  · rw [h.1]
    decide
  · exact (h.2.2.2.2.2.2.2.2.2 rfl rfl
      ⟨{ x := 60, y := 160, width := 20, height := 30, type := ObstacleType.normal },
        by simp [collisionDemo],
        by norm_num [hitsObstacle, collisionDemo, initialState, resizeCanvas_840]⟩).1

/-- C12: `jump` dispatches on the session state.  Not running and not over: it is
`startGame`.  Over (and not running): it is `restartGame`.  Running, grounded and not
paused: it sets `jumping = true` and `jumpVelocity = -12 * scale`, plays the jump cue
and changes nothing else.  Running (and not over) and either airborne or paused: the
state is unchanged. -/
theorem C12_jump_dispatch (s : State) :
    (s.gameRunning = false → s.gameOver = false → jump s = startGame s) ∧
    (s.gameRunning = false → s.gameOver = true → jump s = restartGame s) ∧
    (s.gameRunning = true → s.dino.jumping = false → s.gamePaused = false →
      jump s = .ok
        { s with dino := { s.dino with jumping := true, jumpVelocity := -12 * s.scale },
                 log := s.log ++ [Call.playSound Cue.jump] }) ∧
    (s.gameRunning = true → s.gameOver = false →
      (s.dino.jumping = true ∨ s.gamePaused = true) → jump s = .ok s) := by
  refine ⟨?_, ?_, ?_, ?_⟩
  · intro hr ho
    simp [jump, hr, ho]
  · intro hr ho
    simp [jump, hr, ho]
  · intro hr hj hp
    simp [jump, hr, hj, hp]
  · intro hr ho h
    rcases h with h | h
    · simp [jump, hr, ho, h]
    · simp [jump, hr, ho, h]

/-- Witness for C12: the four session states, on the start screen, after game over, in a
running session on the ground, and in a paused session in the air. -/
theorem C12_jump_dispatch_witness :
    jump startScreenDemo = startGame startScreenDemo ∧
    jump gameOverDemo = restartGame gameOverDemo ∧
    (finalState (jump collisionDemo)).dino.jumping = true ∧
    jump pausedDemo = .ok pausedDemo := by
  refine ⟨(C12_jump_dispatch startScreenDemo).1 rfl rfl,
    (C12_jump_dispatch gameOverDemo).2.1 rfl rfl, ?_,
    (C12_jump_dispatch pausedDemo).2.2.2 rfl rfl (Or.inl rfl)⟩
  rw [(C12_jump_dispatch collisionDemo).2.2.1 rfl rfl rfl]
  rfl

/-- C13: on a running session with `gamePaused = true`, each of the six updates of a
frame returns the state unchanged, and so does the whole frame: score, level, lives,
base and effective speed, both spawn timers, the obstacle and pickup lists, the
inventory, the effects, the character and the achievements are all unchanged. -/
theorem C13_paused_frame_changes_nothing (r r1 r2 : ℚ) (s : State)
    (hrun : s.gameRunning = true) (hpaused : s.gamePaused = true) :
    updateDino s = s ∧
    updateObstacles r s = .ok s ∧
    updatePowerUps r1 r2 s = s ∧
    updateEffects s = s ∧
    checkCollisions s = s ∧
    updateGameSpeed s = .ok s ∧
    gameLoop r r1 r2 s = .ok s := by
  have h1 : updateDino s = s := by simp [updateDino, hpaused]
  have h2 : updateObstacles r s = .ok s := by simp [updateObstacles, hpaused]
  have h3 : updatePowerUps r1 r2 s = s := by simp [updatePowerUps, hpaused]
  have h4 : updateEffects s = s := by simp [updateEffects, hpaused]
  have h5 : checkCollisions s = s := by simp [checkCollisions, hpaused]
  have h6 : updateGameSpeed s = .ok s := by simp [updateGameSpeed, hpaused]
  refine ⟨h1, h2, h3, h4, h5, h6, ?_⟩
  rw [gameLoop_running r r1 r2 s hrun, h1, h2]
  show updateGameSpeed (checkCollisions (updateEffects (updatePowerUps r1 r2 s))) = .ok s
  rw [h3, h4, h5, h6]

/-- Witness for C13: a frame on the paused `pausedDemo`, whose character is in the air
with effects running. -/
theorem C13_paused_frame_changes_nothing_witness :
    gameLoop 0 0 0 pausedDemo = .ok pausedDemo :=
  (C13_paused_frame_changes_nothing 0 0 0 pausedDemo rfl rfl).2.2.2.2.2.2

/-! ## Difficulty selection -/

/-- A frame of a running, unpaused session whose selected difficulty names no property of
the settings object throws in `updateObstacles`, after `updateDino` and the timer
increment. -/
theorem gameLoop_error_of_unknown (r r1 r2 : ℚ) (t : State)
    (hnone : difficultySettings t.difficulty = none)
    (hkey : t.difficulty ∉ objectPrototypeKeys) (hrun : t.gameRunning = true)
    (hpaused : t.gamePaused = false) :
    gameLoop r r1 r2 t =
      .error (.typeError
        { updateDino t with obstacleTimer := (updateDino t).obstacleTimer + 1 }) := by
  rw [gameLoop_running r r1 r2 t hrun]
  have hd : (updateDino t).difficulty = t.difficulty := (updateDino_speed t).2.1
  have hd2 : difficultySettings (updateDino t).difficulty = none := by
    rw [hd, hnone]
  have hk2 : (updateDino t).difficulty ∉ objectPrototypeKeys := by
    rw [hd]
    exact hkey
  have hp2 : (updateDino t).gamePaused = false := by
    rw [(updateDino_speed t).1, hpaused]
  simp only [updateObstacles, hp2, hd2, hk2, Bool.false_eq_true, if_false]
  rfl

/-- The outcome of the selection handler for a value outside the table: the value is
stored, then `resetLives` fails, by a `TypeError` or, for an inherited member, by a
`NaN`. -/
theorem selectDifficulty_error (value : String) (s : State)
    (hnone : difficultySettings value = none) :
    selectDifficulty value s = .error
      (if value ∈ objectPrototypeKeys then
        Failure.notANumber { s with difficulty := value }
      else Failure.typeError { s with difficulty := value }) := by
  by_cases hk : value ∈ objectPrototypeKeys <;>
    simp [selectDifficulty, resetLives, hnone, hk]

/-- Counterexample for C14: selecting the value `"insane"`, which names no property of
the settings object, on `collisionDemo` (profile `normal`, 3 lives) throws and leaves
`"insane"` selected, and the next frame throws as well; selecting `"constructor"`,
an inherited member, does not throw, but leaves `"constructor"` selected too. -/
theorem C14_invalid_selection_counterexample :
    difficultySettings "insane" = none ∧
    selectDifficulty "insane" collisionDemo =
      .error (.typeError { collisionDemo with difficulty := "insane" }) ∧
    (finalState (selectDifficulty "insane" collisionDemo)).difficulty ≠
      collisionDemo.difficulty ∧
    (∃ e, gameLoop 0 0 0 (finalState (selectDifficulty "insane" collisionDemo)) = .error e) ∧
    ¬ (∃ s2, selectDifficulty "insane" collisionDemo = .ok s2 ∧
        s2.difficulty = collisionDemo.difficulty ∧ s2.lives = collisionDemo.lives) ∧
    selectDifficulty "constructor" collisionDemo =
      .error (.notANumber { collisionDemo with difficulty := "constructor" }) ∧
    (finalState (selectDifficulty "constructor" collisionDemo)).difficulty ≠
      collisionDemo.difficulty := by
  have hnone : difficultySettings "insane" = none := by decide
  have hkey : "insane" ∉ objectPrototypeKeys := by decide
  have hsel : selectDifficulty "insane" collisionDemo =
      .error (.typeError { collisionDemo with difficulty := "insane" }) := by
    rw [selectDifficulty_error "insane" collisionDemo hnone, if_neg hkey]
  have hnone2 : difficultySettings "constructor" = none := by decide
  have hkey2 : "constructor" ∈ objectPrototypeKeys := by decide
  have hsel2 : selectDifficulty "constructor" collisionDemo =
      .error (.notANumber { collisionDemo with difficulty := "constructor" }) := by
    rw [selectDifficulty_error "constructor" collisionDemo hnone2, if_pos hkey2]
  refine ⟨hnone, hsel, ?_, ?_, ?_, hsel2, ?_⟩
  · rw [hsel]
    decide
  · rw [hsel]
    exact ⟨_, gameLoop_error_of_unknown 0 0 0 _ hnone hkey rfl rfl⟩
  · rintro ⟨s2, h, _⟩
    rw [hsel] at h
    cases h
  · rw [hsel2]
    decide

/-- C14 (amended): a selected value that is not one of the four profiles is not
rejected: the handler stores it as the selected difficulty.  If the value names no
property of the settings object (it is neither a profile nor a member inherited from
`Object.prototype`), the handler then throws in `resetLives`, with lives unchanged;
while it stays selected, every frame of a running, unpaused session throws in
`updateObstacles`, and `startGame` throws as well.  If the value names an inherited
member, nothing is thrown and `lives` is set to `NaN`.  A value that is one of the four
profiles is stored without error and sets lives to `max(1, 3 + livesBonus)`. -/
theorem C14_unknown_difficulty_is_stored_and_throws (value : String) (s : State) :
    (difficultySettings value = none →
      (finalState (selectDifficulty value s)).difficulty = value) ∧
    (difficultySettings value = none → value ∉ objectPrototypeKeys →
      selectDifficulty value s = .error (.typeError { s with difficulty := value }) ∧
      (finalState (selectDifficulty value s)).lives = s.lives ∧
      (∀ (r r1 r2 : ℚ) (t : State), t.difficulty = value → t.gameRunning = true →
        t.gamePaused = false → ∃ t2, gameLoop r r1 r2 t = .error (.typeError t2)) ∧
      (∀ t : State, t.difficulty = value → ∃ t2, startGame t = .error (.typeError t2))) ∧
    (difficultySettings value = none → value ∈ objectPrototypeKeys →
      selectDifficulty value s = .error (.notANumber { s with difficulty := value })) ∧
    (∀ settings, difficultySettings value = some settings →
      selectDifficulty value s =
        .ok { s with difficulty := value, lives := max 1 (3 + settings.livesBonus) }) := by
  refine ⟨?_, ?_, ?_, ?_⟩
  · intro hnone
    rw [selectDifficulty_error value s hnone]
    by_cases hk : value ∈ objectPrototypeKeys <;> simp [hk, finalState, Failure.state]
  · intro hnone hkey
    have hsel : selectDifficulty value s =
        .error (.typeError { s with difficulty := value }) := by
      rw [selectDifficulty_error value s hnone, if_neg hkey]
    refine ⟨hsel, by rw [hsel]; rfl, ?_, ?_⟩
    · intro r r1 r2 t hd hr hp
      rw [← hd] at hnone hkey
      exact ⟨_, gameLoop_error_of_unknown r r1 r2 t hnone hkey hr hp⟩
    · intro t hd
      rw [← hd] at hnone hkey
      have hst := startGame_error t hnone
      rw [if_neg hkey] at hst
      exact ⟨_, hst⟩
  · intro hnone hkey
    rw [selectDifficulty_error value s hnone, if_pos hkey]
  · intro settings hsome
    simp [selectDifficulty, resetLives, hsome]

/-- Witness for C14 (amended): the value `"insane"` on `collisionDemo`. -/
theorem C14_unknown_difficulty_is_stored_and_throws_witness :
    selectDifficulty "insane" collisionDemo =
      .error (.typeError { collisionDemo with difficulty := "insane" }) ∧
    (finalState (selectDifficulty "insane" collisionDemo)).lives = collisionDemo.lives := by
  have h := (C14_unknown_difficulty_is_stored_and_throws "insane" collisionDemo).2.1
    (by decide) (by decide)
  exact ⟨h.1, h.2.1⟩

/-! ## Character position -/

/-- Counterexample for C15: after an unpaused `updateDino` on the ducking `duckDemo`
the character is not airborne, yet `y` is `groundY + 15`, not `groundY`. -/
theorem C15_ducking_counterexample :
    duckDemo.gamePaused = false ∧
    (updateDino duckDemo).dino.jumping = false ∧
    (updateDino duckDemo).dino.groundY = 150 ∧
    (updateDino duckDemo).dino.y = 165 ∧
    (updateDino duckDemo).dino.y ≠ (updateDino duckDemo).dino.groundY := by
  have hy : (updateDino duckDemo).dino.y = 165 := by
    norm_num [updateDino, duckDemo, duck, collisionDemo, initialState, resizeCanvas_840]
  have hg : (updateDino duckDemo).dino.groundY = 150 := by
    norm_num [updateDino, duckDemo, duck, collisionDemo, initialState, resizeCanvas_840]
  refine ⟨rfl, ?_, hg, hy, ?_⟩
  · simp [updateDino, duckDemo, duck, collisionDemo, initialState]
  · rw [hy, hg]
    norm_num

/-- C15 (amended): in every state produced by an unpaused `updateDino`, if the character
is not airborne (`jumping = false`) then `y` equals `groundY` when it is not ducking and
`groundY + 15 * scale` when it is ducking; `groundY`, the ducking flag and the scale are
not changed by the update. -/
theorem C15_grounded_position (s : State) (hpaused : s.gamePaused = false) :
    (updateDino s).dino.groundY = s.dino.groundY ∧
    (updateDino s).dino.ducking = s.dino.ducking ∧
    (updateDino s).scale = s.scale ∧
    ((updateDino s).dino.jumping = false →
      ((updateDino s).dino.ducking = false →
        (updateDino s).dino.y = (updateDino s).dino.groundY) ∧
      ((updateDino s).dino.ducking = true →
        (updateDino s).dino.y = (updateDino s).dino.groundY + 15 * (updateDino s).scale)) := by
  unfold updateDino
  simp only [hpaused, Bool.false_eq_true, if_false]
  cases hj : s.dino.jumping <;> cases hd : s.dino.ducking <;>
    cases hs : s.dino.hasShield <;>
    simp [hj, hd, hs] <;>
    split_ifs <;> simp_all

/-- Witness for C15 (amended): the ducking `duckDemo` rests at `groundY + 15 * scale`. -/
theorem C15_grounded_position_witness :
    (updateDino duckDemo).dino.y =
      (updateDino duckDemo).dino.groundY + 15 * (updateDino duckDemo).scale := by
  have h := C15_grounded_position duckDemo rfl
  refine (h.2.2.2 ?_).2 ?_
  · simp [updateDino, duckDemo, duck, collisionDemo, initialState]
  · simp [updateDino, duckDemo, duck, collisionDemo, initialState]

/-! ## Pickup collection -/

/-- Reading back the count just written. -/
theorem Inventory.get_set_same (inv : Inventory) (k : Kind) (v : Int) :
    (inv.set k v).get k = v := by
  cases k <;> rfl

/-- Writing one count leaves the other counts as they are. -/
theorem Inventory.get_set_other (inv : Inventory) (k k2 : Kind) (v : Int) (h : k2 ≠ k) :
    (inv.set k v).get k2 = inv.get k2 := by
  cases k <;> cases k2 <;> first | rfl | exact absurd rfl h

/-- `loseLife` moves neither the character nor the pickups. -/
theorem loseLife_pickup_frame (s : State) :
    (loseLife s).powerUps = s.powerUps ∧
    (∀ p, hitsPowerUp (loseLife s).dino p = hitsPowerUp s.dino p) := by
  unfold loseLife
  simp only []
  split_ifs <;> exact ⟨rfl, fun _ => rfl⟩

/-- The obstacle collision loop changes neither the pickup list, the inventory nor the
character's box, so the pickup test gives the same answers after it. -/
theorem obstacleCollisionLoop_pickup_frame (n : Nat) (s : State)
    (hn : n ≤ s.obstacles.length) :
    (obstacleCollisionLoop n s).powerUps = s.powerUps ∧
    (obstacleCollisionLoop n s).powerUpInventory = s.powerUpInventory ∧
    (∀ p, hitsPowerUp (obstacleCollisionLoop n s).dino p = hitsPowerUp s.dino p) := by
  refine ⟨?_, (obstacleCollisionLoop_frame n s hn).1, ?_⟩
  · rcases obstacleCollisionLoop_cases s n hn with ⟨heq, _⟩ | ⟨i, o, _, _, _, _, heq⟩
    · rw [heq]
    · rw [heq]
      unfold resolveObstacleHit
      split_ifs
      · rfl
      · exact (loseLife_pickup_frame s).1
  · rcases obstacleCollisionLoop_cases s n hn with ⟨heq, _⟩ | ⟨i, o, _, _, _, _, heq⟩
    · rw [heq]
      intro p
      rfl
    · rw [heq]
      unfold resolveObstacleHit
      split_ifs
      · intro p
        rfl
      · exact (loseLife_pickup_frame s).2

/-- C16: in an unpaused state in which at least one pickup overlaps the character's full
box, `checkCollisions` removes exactly one pickup, which overlaps the box (the one of
largest index), adds exactly 1 to the inventory count of its kind and leaves the other
two counts unchanged, however many pickups overlap; when no pickup overlaps, the
inventory and the pickup list are unchanged.  The running flag is not needed. -/
theorem C16_pickup_collects_exactly_one (s : State) (hpaused : s.gamePaused = false) :
    ((∃ p ∈ s.powerUps, hitsPowerUp s.dino p = true) →
      ∃ i p, s.powerUps[i]? = some p ∧ hitsPowerUp s.dino p = true ∧
        (∀ j p2, i < j → s.powerUps[j]? = some p2 → hitsPowerUp s.dino p2 = false) ∧
        (checkCollisions s).powerUps = s.powerUps.eraseIdx i ∧
        (checkCollisions s).powerUps.length + 1 = s.powerUps.length ∧
        (checkCollisions s).powerUpInventory.get p.type =
          s.powerUpInventory.get p.type + 1 ∧
        (∀ k, k ≠ p.type →
          (checkCollisions s).powerUpInventory.get k = s.powerUpInventory.get k)) ∧
    ((∀ p ∈ s.powerUps, hitsPowerUp s.dino p = false) →
      (checkCollisions s).powerUps = s.powerUps ∧
      (checkCollisions s).powerUpInventory = s.powerUpInventory) := by
  obtain ⟨hpu, hinv, hbox⟩ :=
    obstacleCollisionLoop_pickup_frame s.obstacles.length s (Nat.le_refl _)
  have hcc : checkCollisions s =
      powerUpCollisionLoop (obstacleCollisionLoop s.obstacles.length s).powerUps.length
        (obstacleCollisionLoop s.obstacles.length s) := by
    simp [checkCollisions, hpaused]
  generalize obstacleCollisionLoop s.obstacles.length s = t at hpu hinv hbox hcc
  rcases powerUpCollisionLoop_cases t t.powerUps.length (Nat.le_refl _) with
    ⟨heq, hno⟩ | ⟨i, p, hi, hip, hhit, hlater, heq⟩
  · constructor
    · rintro ⟨p, hmem, hp⟩
      rw [← hpu] at hmem
      obtain ⟨j, hj, hjp⟩ := List.getElem_of_mem hmem
      have := hno j p hj (by rw [List.getElem?_eq_getElem hj, hjp])
      rw [hbox, hp] at this
      cases this
    · intro _
      rw [hcc, heq]
      exact ⟨hpu, hinv⟩
  · rw [hpu] at hip hi
    rw [hbox] at hhit
    constructor
    · intro _
      refine ⟨i, p, hip, hhit, ?_, ?_, ?_, ?_, ?_⟩
      · intro j p2 hij hjp
        have hj : j < t.powerUps.length := by
          rw [hpu]
          by_contra hge
          rw [List.getElem?_eq_none (Nat.le_of_not_lt hge)] at hjp
          cases hjp
        have := hlater j p2 hij hj (by rw [hpu]; exact hjp)
        rw [hbox] at this
        exact this
      · rw [hcc, heq]
        show t.powerUps.eraseIdx i = s.powerUps.eraseIdx i
        rw [hpu]
      · rw [hcc, heq]
        show (t.powerUps.eraseIdx i).length + 1 = s.powerUps.length
        rw [hpu, List.length_eraseIdx]
        simp only [hi, if_true]
        omega
      · rw [hcc, heq]
        show (t.powerUpInventory.set p.type (t.powerUpInventory.get p.type + 1)).get p.type =
          s.powerUpInventory.get p.type + 1
        rw [Inventory.get_set_same, hinv]
      · intro k hk
        rw [hcc, heq]
        show (t.powerUpInventory.set p.type (t.powerUpInventory.get p.type + 1)).get k =
          s.powerUpInventory.get k
        rw [Inventory.get_set_other _ _ _ _ hk, hinv]
    · intro hnone
      have hmem : p ∈ s.powerUps := List.getElem?_mem hip
      rw [hnone p hmem] at hhit
      cases hhit

/-- Witness for C16: two pickups overlap the character of `pickupDemo`; the slow-mo at
index 2 is collected, the shield at index 0 stays. -/
theorem C16_pickup_collects_exactly_one_witness :
    ∃ i p, pickupDemo.powerUps[i]? = some p ∧
      (checkCollisions pickupDemo).powerUps = pickupDemo.powerUps.eraseIdx i ∧
      (checkCollisions pickupDemo).powerUpInventory.get p.type =
        pickupDemo.powerUpInventory.get p.type + 1 := by
  obtain ⟨i, p, h1, _, _, h4, _, h6, _⟩ :=
    (C16_pickup_collects_exactly_one pickupDemo rfl).1
      ⟨{ x := 60, y := 140, width := 25, height := 25, type := Kind.shield },
        by simp [pickupDemo],
        by norm_num [hitsPowerUp, pickupDemo, initialState, resizeCanvas_840]⟩
  exact ⟨i, p, h1, h4, h6⟩

/-! ## Score and level within a session -/

/-- `updateObstacles` never lowers the score: it adds 10 per removed obstacle. -/
theorem updateObstacles_score_le (r : ℚ) (s : State) :
    s.score ≤ (finalState (updateObstacles r s)).score := by
  unfold updateObstacles
  cases hp : s.gamePaused with
  | true => simp [finalState]
  | false =>
    cases hs : difficultySettings s.difficulty with
    | none =>
      by_cases hk : s.difficulty ∈ objectPrototypeKeys
      · simp only [hk, Bool.false_eq_true, if_false, if_true, finalState, moveObstacles_eq]
        have : (0 : Int) ≤ (removedObstacles
            (currentSpeed { s with obstacleTimer := s.obstacleTimer + 1 })
            s.obstacles : Int) := Int.ofNat_nonneg _
        show s.score ≤ s.score + _
        omega
      · simp [hk, finalState, Failure.state]
    | some settings =>
      simp only [Bool.false_eq_true, if_false, finalState, moveObstacles_eq]
      have hsc : (spawnObstacle r settings s).score = s.score := by
        unfold spawnObstacle
        simp only []
        split_ifs <;> rfl
      show s.score ≤ (spawnObstacle r settings s).score + _
      rw [hsc]
      have : (0 : Int) ≤ (removedObstacles (currentSpeed (spawnObstacle r settings s))
          (spawnObstacle r settings s).obstacles : Int) := Int.ofNat_nonneg _
      omega

/-- The other five updates of a frame leave the score unchanged. -/
theorem updates_score_eq (r1 r2 : ℚ) (s : State) :
    (updateDino s).score = s.score ∧
    (updatePowerUps r1 r2 s).score = s.score ∧
    (updateEffects s).score = s.score ∧
    (checkCollisions s).score = s.score ∧
    (finalState (updateGameSpeed s)).score = s.score := by
  refine ⟨?_, ?_, ?_, ?_, ?_⟩
  · unfold updateDino
    cases hp : s.gamePaused <;> simp
  · unfold updatePowerUps
    cases hp : s.gamePaused with
    | true => simp
    | false =>
      simp only [Bool.false_eq_true, if_false, movePowerUps_eq]
      unfold spawnPowerUp
      simp only []
      split_ifs <;> rfl
  · unfold updateEffects
    cases hp : s.gamePaused <;> simp
  · unfold checkCollisions
    cases hp : s.gamePaused with
    | true => simp
    | false =>
      simp only [Bool.false_eq_true, if_false]
      rw [(powerUpCollisionLoop_frame _ _ (Nat.le_refl _)).2.1]
      rcases obstacleCollisionLoop_cases s s.obstacles.length (Nat.le_refl _) with
        ⟨heq, _⟩ | ⟨i, o, _, _, _, _, heq⟩
      · rw [heq]
      · rw [heq]
        unfold resolveObstacleHit loseLife
        simp only []
        split_ifs <;> rfl
  · unfold updateGameSpeed
    cases hp : s.gamePaused with
    | true => simp [finalState]
    | false =>
      cases hs : difficultySettings s.difficulty with
      | none =>
        by_cases hk : s.difficulty ∈ objectPrototypeKeys <;>
          simp [hs, hk, finalState, Failure.state]
      | some settings =>
        simp only [hs, Bool.false_eq_true, if_false, finalState, checkAchievements_frame]
        split_ifs <;> rfl

/-- One event that does not call `startGame` never lowers the score. -/
theorem step_score_le (s : State) (a : Action)
    (hjump : a = Action.jump → s.gameRunning = true ∧ s.gameOver = false) :
    s.score ≤ (finalState (step s a)).score := by
  cases a with
  | jump =>
    obtain ⟨hr, ho⟩ := hjump rfl
    show s.score ≤ (finalState (jump s)).score
    unfold jump
    simp only [hr, ho, Bool.not_true, Bool.false_and, Bool.false_eq_true, if_false,
      Bool.true_and]
    split_ifs <;> exact le_refl _
  | duck =>
    show s.score ≤ (duck s).score
    unfold duck
    split_ifs <;> exact le_refl _
  | releaseDuck => exact le_refl _
  | usePowerUp k =>
    show s.score ≤ (usePowerUp k s).score
    unfold usePowerUp
    split_ifs
    · cases k <;> exact le_refl _
    · exact le_refl _
  | togglePause =>
    show s.score ≤ (togglePause s).score
    unfold togglePause
    split_ifs <;> exact le_refl _
  | selectDifficulty v =>
    show s.score ≤ (finalState (selectDifficulty v s)).score
    unfold selectDifficulty resetLives
    simp only []
    cases difficultySettings v with
    | none => by_cases hk : v ∈ objectPrototypeKeys <;> simp [hk, finalState, Failure.state]
    | some settings => exact le_refl _
  | toggleSound => exact le_refl _
  | frame r r1 r2 =>
    refine gameLoop_preserves (fun t => s.score ≤ t.score) ?_ ?_ ?_ ?_ ?_ ?_ r r1 r2 s
      (le_refl _)
    · intro t h
      show s.score ≤ (updateDino t).score
      rw [(updates_score_eq 0 0 t).1]
      exact h
    · intro r t h
      exact le_trans h (updateObstacles_score_le r t)
    · intro q1 q2 t h
      show s.score ≤ (updatePowerUps q1 q2 t).score
      rw [(updates_score_eq q1 q2 t).2.1]
      exact h
    · intro t h
      show s.score ≤ (updateEffects t).score
      rw [(updates_score_eq 0 0 t).2.2.1]
      exact h
    · intro t h
      show s.score ≤ (checkCollisions t).score
      rw [(updates_score_eq 0 0 t).2.2.2.1]
      exact h
    · intro t h
      show s.score ≤ (finalState (updateGameSpeed t)).score
      rw [(updates_score_eq 0 0 t).2.2.2.2]
      exact h

/-- C17: within a session, that is along any sequence of frames and input events none
of which calls `startGame`, the score never decreases; therefore the level that an
unpaused `updateGameSpeed` recomputes from the score never decreases either. -/
theorem C17_score_and_level_monotone (s t : State) (h : InSession s t) :
    s.score ≤ t.score ∧
    (s.gamePaused = false → t.gamePaused = false →
      (finalState (updateGameSpeed s)).level ≤ (finalState (updateGameSpeed t)).level) := by
  have hscore : s.score ≤ t.score := by
    induction h with
    | refl => exact le_refl _
    | step a _ hj ih => exact le_trans ih (step_score_le _ a hj)
  refine ⟨hscore, ?_⟩
  intro hs ht
  rw [updateGameSpeed_level s hs, updateGameSpeed_level t ht]
  have hq : (s.score : ℚ) / 300 ≤ (t.score : ℚ) / 300 := by
    have : (s.score : ℚ) ≤ (t.score : ℚ) := by exact_mod_cast hscore
    linarith
  have := Int.floor_le_floor hq
  omega

/-- Witness for C17: a frame and a duck after `collisionDemo` stay in the session. -/
theorem C17_score_and_level_monotone_witness :
    collisionDemo.score ≤
      (finalState (step (finalState (step collisionDemo (Action.frame 0 0 0)))
        Action.duck)).score :=
  (C17_score_and_level_monotone collisionDemo _
    (InSession.step Action.duck
      (InSession.step (Action.frame 0 0 0) InSession.refl (fun h => by cases h))
      (fun h => by cases h))).1

/-! ## Effect decay -/

/-- One unpaused `updateEffects`, spelled out: each active effect loses one frame and is
switched off when none is left; nothing else changes. -/
theorem updateEffects_eq (s : State) (hpaused : s.gamePaused = false) :
    updateEffects s =
      { s with effects :=
        { speedBoost := s.effects.speedBoost && decide (0 < s.effects.speedBoostTime - 1)
          slowMo := s.effects.slowMo && decide (0 < s.effects.slowMoTime - 1)
          speedBoostTime :=
            if s.effects.speedBoost then s.effects.speedBoostTime - 1
            else s.effects.speedBoostTime
          slowMoTime :=
            if s.effects.slowMo then s.effects.slowMoTime - 1 else s.effects.slowMoTime } } := by
  unfold updateEffects
  simp only [hpaused, Bool.false_eq_true, if_false]
  congr 1
  generalize s.effects = e
  obtain ⟨sb, sm, sbt, smt⟩ := e
  have h1 : (sbt - 1 ≤ 0) ↔ ¬ (0 < sbt - 1) := by omega
  have h2 : (smt - 1 ≤ 0) ↔ ¬ (0 < smt - 1) := by omega
  cases sb <;> cases sm <;> simp only [h1, h2, Bool.false_eq_true, if_false, if_true,
    Bool.false_and, Bool.true_and] <;> split_ifs <;> simp_all

/-- The two flags after one unpaused `updateEffects`. -/
theorem updateEffects_flags (s : State) (hpaused : s.gamePaused = false) :
    (updateEffects s).effects.speedBoost =
      (s.effects.speedBoost && decide (0 < s.effects.speedBoostTime - 1)) ∧
    (updateEffects s).effects.slowMo =
      (s.effects.slowMo && decide (0 < s.effects.slowMoTime - 1)) := by
  rw [updateEffects_eq s hpaused]
  exact ⟨rfl, rfl⟩

/-- After `n` unpaused updates an effect that had more than `n` frames left is still
active, with `n` frames fewer; this holds for both effects independently. -/
theorem updateEffects_iterate (n : Nat) (s : State) (hpaused : s.gamePaused = false) :
    (updateEffects^[n] s).gamePaused = false ∧
    (s.effects.speedBoost = true → (n : Int) < s.effects.speedBoostTime →
      (updateEffects^[n] s).effects.speedBoost = true ∧
      (updateEffects^[n] s).effects.speedBoostTime = s.effects.speedBoostTime - n) ∧
    (s.effects.slowMo = true → (n : Int) < s.effects.slowMoTime →
      (updateEffects^[n] s).effects.slowMo = true ∧
      (updateEffects^[n] s).effects.slowMoTime = s.effects.slowMoTime - n) := by
  induction n with
  | zero =>
    refine ⟨hpaused, ?_, ?_⟩
    · intro h _
      exact ⟨h, by simp⟩
    · intro h _
      exact ⟨h, by simp⟩
  | succ n ih =>
    obtain ⟨hp, hb, hm⟩ := ih
    rw [Function.iterate_succ_apply', updateEffects_eq _ hp]
    refine ⟨hp, ?_, ?_⟩
    · intro h1 h2
      obtain ⟨hb1, hb2⟩ := hb h1 (by push_cast at h2; omega)
      simp only [hb1, hb2, Bool.true_and, if_true, decide_eq_true_eq]
      push_cast at h2 ⊢
      constructor <;> omega
    · intro h1 h2
      obtain ⟨hm1, hm2⟩ := hm h1 (by push_cast at h2; omega)
      simp only [hm1, hm2, Bool.true_and, if_true, decide_eq_true_eq]
      push_cast at h2 ⊢
      constructor <;> omega

/-- C18: an unpaused `updateEffects` decrements the remaining time of each active timed
effect by exactly 1 and switches the effect off when the time is then 0 (or below),
touches neither an inactive effect nor anything outside the effects; an effect active
with 300 frames left is still active after 299 unpaused updates and inactive after the
300th; and the two effects run independently, so both can be active at once. -/
theorem C18_effect_decay (s : State) (hpaused : s.gamePaused = false) :
    (s.effects.speedBoost = true →
      (updateEffects s).effects.speedBoostTime = s.effects.speedBoostTime - 1 ∧
      ((updateEffects s).effects.speedBoost = true ↔ 0 < s.effects.speedBoostTime - 1)) ∧
    (s.effects.speedBoost = false →
      (updateEffects s).effects.speedBoost = false ∧
      (updateEffects s).effects.speedBoostTime = s.effects.speedBoostTime) ∧
    (s.effects.slowMo = true →
      (updateEffects s).effects.slowMoTime = s.effects.slowMoTime - 1 ∧
      ((updateEffects s).effects.slowMo = true ↔ 0 < s.effects.slowMoTime - 1)) ∧
    (s.effects.slowMo = false →
      (updateEffects s).effects.slowMo = false ∧
      (updateEffects s).effects.slowMoTime = s.effects.slowMoTime) ∧
    updateEffects s = { s with effects := (updateEffects s).effects } ∧
    (s.effects.speedBoost = true → s.effects.speedBoostTime = 300 →
      (updateEffects^[299] s).effects.speedBoost = true ∧
      (updateEffects^[299] s).effects.speedBoostTime = 1 ∧
      (updateEffects^[300] s).effects.speedBoost = false) ∧
    (s.effects.slowMo = true → s.effects.slowMoTime = 300 →
      (updateEffects^[299] s).effects.slowMo = true ∧
      (updateEffects^[299] s).effects.slowMoTime = 1 ∧
      (updateEffects^[300] s).effects.slowMo = false) ∧
    (s.effects.speedBoost = true → s.effects.slowMo = true →
      1 < s.effects.speedBoostTime → 1 < s.effects.slowMoTime →
      (updateEffects s).effects.speedBoost = true ∧
      (updateEffects s).effects.slowMo = true) := by
  have heq := updateEffects_eq s hpaused
  obtain ⟨hp299, hb299, hm299⟩ := updateEffects_iterate 299 s hpaused
  have h300 : updateEffects^[300] s = updateEffects (updateEffects^[299] s) :=
    Function.iterate_succ_apply' updateEffects 299 s
  refine ⟨?_, ?_, ?_, ?_, ?_, ?_, ?_, ?_⟩
  · intro h
    rw [heq]
    simp [h]
  · intro h
    rw [heq]
    simp [h]
  · intro h
    rw [heq]
    simp [h]
  · intro h
    rw [heq]
    simp [h]
  · rw [heq]
  · intro h1 h2
    obtain ⟨ha, hb⟩ := hb299 h1 (by rw [h2]; decide)
    rw [h2] at hb
    refine ⟨ha, by rw [hb]; decide, ?_⟩
    rw [h300, (updateEffects_flags _ hp299).1, ha, hb]
    decide
  · intro h1 h2
    obtain ⟨ha, hb⟩ := hm299 h1 (by rw [h2]; decide)
    rw [h2] at hb
    refine ⟨ha, by rw [hb]; decide, ?_⟩
    rw [h300, (updateEffects_flags _ hp299).2, ha, hb]
    decide
  · intro h1 h2 h3 h4
    rw [heq]
    simp only [h1, h2, Bool.true_and, decide_eq_true_eq]
    constructor <;> omega

/-- Witness for C18: both effects of `effectsDemo` are active with 300 frames left; after
one update both are still active, after 299 the boost has one frame left, after 300 it
is off. -/
theorem C18_effect_decay_witness :
    (updateEffects effectsDemo).effects.speedBoost = true ∧
    (updateEffects effectsDemo).effects.slowMo = true ∧
    (updateEffects^[299] effectsDemo).effects.speedBoostTime = 1 ∧
    (updateEffects^[300] effectsDemo).effects.speedBoost = false := by
  have h := C18_effect_decay effectsDemo rfl
  have hboth := h.2.2.2.2.2.2.2 rfl rfl (by decide) (by decide)
  have hrun := h.2.2.2.2.2.1 rfl rfl
  exact ⟨hboth.1, hboth.2, hrun.2.1, hrun.2.2⟩

/-! ## The sweeps as list functions -/

/-- Keeping the obstacles that are not off the field is keeping those with
`x + width ≥ 0`, and the removed ones are the rest. -/
theorem sweptObstacles_spec (speed : ℚ) (obstacles : List Obstacle) :
    sweptObstacles speed obstacles =
      (obstacles.map (fun o => { o with x := o.x - speed })).filter
        (fun o => decide (o.x + o.width ≥ 0)) ∧
    (removedObstacles speed obstacles : Int) =
      (obstacles.length : Int) - ((sweptObstacles speed obstacles).length : Int) := by
  constructor
  · unfold sweptObstacles
    have hf : (fun o : Obstacle => !o.offField) = (fun o => decide (o.x + o.width ≥ 0)) := by
      funext o
      by_cases h : o.x + o.width < 0
      · simp [Obstacle.offField, h, not_le.mpr h]
      · simp [Obstacle.offField, h, not_lt.mp h]
    rw [hf]
    rfl
  · unfold sweptObstacles removedObstacles
    have h := List.length_eq_countP_add_countP Obstacle.offField
      (obstacles.map (Obstacle.moved speed))
    rw [List.length_map] at h
    have hc : List.countP (fun a => decide ¬ Obstacle.offField a = true)
        (obstacles.map (Obstacle.moved speed)) =
        ((obstacles.map (Obstacle.moved speed)).filter (fun o => !o.offField)).length := by
      rw [List.countP_eq_length_filter]
      congr 2
      funext o
      cases o.offField <;> rfl
    rw [hc] at h
    omega

/-- Keeping the pickups that are not off the field is keeping those with
`x + width ≥ 0`. -/
theorem sweptPowerUps_spec (speed : ℚ) (powerUps : List PowerUp) :
    sweptPowerUps speed powerUps =
      (powerUps.map (fun p => { p with x := p.x - speed })).filter
        (fun p => decide (p.x + p.width ≥ 0)) := by
  unfold sweptPowerUps
  have hf : (fun p : PowerUp => !p.offField) = (fun p => decide (p.x + p.width ≥ 0)) := by
    funext p
    by_cases h : p.x + p.width < 0
    · simp [PowerUp.offField, h, not_le.mpr h]
    · simp [PowerUp.offField, h, not_lt.mp h]
  rw [hf]
  rfl

/-- C19: the backward in-place sweep of `updateObstacles` equals the list function
"subtract the current speed from the `x` of every obstacle, then keep, in the original
order, those with `x + width ≥ 0`" (so every obstacle is moved exactly once and a
removal skips none), and the score grows by exactly 10 times the number of removed
obstacles; the sweep of `updatePowerUps` equals the same list function on the pickups
and leaves the score unchanged.  In both methods nothing else is changed by the sweep. -/
theorem C19_sweeps_refine_list_functions (s : State) :
    moveObstacles s =
      { s with
        obstacles := (s.obstacles.map (fun o => { o with x := o.x - currentSpeed s })).filter
          (fun o => decide (o.x + o.width ≥ 0))
        score := s.score +
          10 * ((s.obstacles.length : Int) - ((moveObstacles s).obstacles.length : Int)) } ∧
    movePowerUps s =
      { s with
        powerUps := (s.powerUps.map (fun p => { p with x := p.x - currentSpeed s })).filter
          (fun p => decide (p.x + p.width ≥ 0)) } ∧
    (movePowerUps s).score = s.score ∧
    (∀ (r : ℚ) (settings : DifficultySettings), s.gamePaused = false →
      difficultySettings s.difficulty = some settings →
      updateObstacles r s = .ok (moveObstacles (spawnObstacle r settings s))) ∧
    (∀ r1 r2 : ℚ, s.gamePaused = false →
      updatePowerUps r1 r2 s = movePowerUps (spawnPowerUp r1 r2 s)) := by
  have ho := moveObstacles_eq s
  have hp := movePowerUps_eq s
  obtain ⟨hs1, hs2⟩ := sweptObstacles_spec (currentSpeed s) s.obstacles
  have hs3 := sweptPowerUps_spec (currentSpeed s) s.powerUps
  have hlen : (moveObstacles s).obstacles = sweptObstacles (currentSpeed s) s.obstacles := by
    rw [ho]
  refine ⟨?_, ?_, ?_, ?_, ?_⟩
  · rw [hlen, ← hs1, ← hs2]
    exact ho
  · rw [← hs3]
    exact hp
  · rw [hp]
  · intro r settings hpaused hsettings
    simp [updateObstacles, hpaused, hsettings]
  · intro r1 r2 hpaused
    simp [updatePowerUps, hpaused]

/-- Witness for C19: the sweep inside `updateObstacles` and `updatePowerUps` on the
unpaused `speedDemo`. -/
theorem C19_sweeps_refine_list_functions_witness :
    updateObstacles 0 speedDemo =
      .ok (moveObstacles (spawnObstacle 0 ⟨1.3, 90, -1⟩ speedDemo)) ∧
    updatePowerUps 0 0 speedDemo = movePowerUps (spawnPowerUp 0 0 speedDemo) :=
  ⟨(C19_sweeps_refine_list_functions speedDemo).2.2.2.1 0 ⟨1.3, 90, -1⟩ rfl
      (by simp [difficultySettings, speedDemo]),
    (C19_sweeps_refine_list_functions speedDemo).2.2.2.2 0 0 rfl⟩

/-! ## Pickup spawner -/

/-- The kind picked by the draw `r2` of `[0, 1)`: thirds of the interval map to the three
kinds in the order of the array `types`. -/
theorem types_pick (r2 : ℚ) (h0 : 0 ≤ r2) (h1 : r2 < 1) :
    (r2 < 1 / 3 →
      types.getD (Int.toNat (Int.floor (r2 * types.length))) Kind.slowMo = Kind.speedBoost) ∧
    (1 / 3 ≤ r2 → r2 < 2 / 3 →
      types.getD (Int.toNat (Int.floor (r2 * types.length))) Kind.slowMo = Kind.shield) ∧
    (2 / 3 ≤ r2 →
      types.getD (Int.toNat (Int.floor (r2 * types.length))) Kind.slowMo = Kind.slowMo) := by
  have hlen : ((types.length : Nat) : ℚ) = 3 := by
    simp [types]
  rw [hlen]
  refine ⟨?_, ?_, ?_⟩
  · intro h
    have hf : Int.floor (r2 * 3) = 0 := by
      rw [Int.floor_eq_iff]
      constructor <;> push_cast <;> linarith
    rw [hf]
    rfl
  · intro ha hb
    have hf : Int.floor (r2 * 3) = 1 := by
      rw [Int.floor_eq_iff]
      constructor <;> push_cast <;> linarith
    rw [hf]
    rfl
  · intro ha
    have hf : Int.floor (r2 * 3) = 2 := by
      rw [Int.floor_eq_iff]
      constructor <;> push_cast <;> linarith
    rw [hf]
    rfl

/-- C20: for draws `r1`, `r2` of `[0, 1)`, an unpaused `updatePowerUps` increments the
power-up timer and spawns nothing while the incremented timer is at most 400; once it
exceeds 400, it appends exactly one pickup with `x = canvasWidth`, of the kind chosen by
`r2` (thirds of `[0, 1)` give speedBoost, shield, slowMo), and resets the timer to 0 if
`r1 < 0.05`, and otherwise appends nothing and keeps the incremented timer.  The pickup
list (with the new pickup) is then swept by the move loop of the same call, and the timer
is not touched again. -/
theorem C20_pickup_spawn (r1 r2 : ℚ) (s : State) (hpaused : s.gamePaused = false)
    (h0 : 0 ≤ r2) (h1 : r2 < 1) :
    updatePowerUps r1 r2 s = movePowerUps (spawnPowerUp r1 r2 s) ∧
    (s.powerUpTimer + 1 ≤ 400 →
      (spawnPowerUp r1 r2 s).powerUps = s.powerUps ∧
      (spawnPowerUp r1 r2 s).powerUpTimer = s.powerUpTimer + 1) ∧
    (400 < s.powerUpTimer + 1 → r1 < 0.05 →
      (∃ p, (spawnPowerUp r1 r2 s).powerUps = s.powerUps ++ [p] ∧
        p.x = s.canvasWidth ∧
        (r2 < 1 / 3 → p.type = Kind.speedBoost) ∧
        (1 / 3 ≤ r2 → r2 < 2 / 3 → p.type = Kind.shield) ∧
        (2 / 3 ≤ r2 → p.type = Kind.slowMo)) ∧
      (spawnPowerUp r1 r2 s).powerUpTimer = 0) ∧
    (400 < s.powerUpTimer + 1 → ¬ r1 < 0.05 →
      (spawnPowerUp r1 r2 s).powerUps = s.powerUps ∧
      (spawnPowerUp r1 r2 s).powerUpTimer = s.powerUpTimer + 1) ∧
    (updatePowerUps r1 r2 s).powerUpTimer = (spawnPowerUp r1 r2 s).powerUpTimer ∧
    (updatePowerUps r1 r2 s).powerUps =
      sweptPowerUps (currentSpeed s) (spawnPowerUp r1 r2 s).powerUps := by
  have hupd : updatePowerUps r1 r2 s = movePowerUps (spawnPowerUp r1 r2 s) := by
    simp [updatePowerUps, hpaused]
  obtain ⟨hk1, hk2, hk3⟩ := types_pick r2 h0 h1
  refine ⟨hupd, ?_, ?_, ?_, ?_, ?_⟩
  · intro hle
    have hn : ¬ (s.powerUpTimer + 1 > 400) := by omega
    have hsp : spawnPowerUp r1 r2 s = { s with powerUpTimer := s.powerUpTimer + 1 } := by
      unfold spawnPowerUp
      simp [hn]
    rw [hsp]
    exact ⟨rfl, rfl⟩
  · intro hgt hr
    have hc : (decide (s.powerUpTimer + 1 > 400) && decide (r1 < 0.05)) = true := by
      simp [hgt, hr]
    unfold spawnPowerUp
    simp only []
    rw [if_pos hc]
    exact ⟨⟨_, rfl, rfl, hk1, hk2, hk3⟩, rfl⟩
  · intro hgt hr
    have hsp : spawnPowerUp r1 r2 s = { s with powerUpTimer := s.powerUpTimer + 1 } := by
      unfold spawnPowerUp
      simp [hr]
    rw [hsp]
    exact ⟨rfl, rfl⟩
  · rw [hupd, movePowerUps_eq]
  · rw [hupd, movePowerUps_eq, currentSpeed_spawnPowerUp]

/-- Witness for C20: on `dwellDemo` (timer 400) the draws 0.01 and 0.5 spawn one shield
pickup at the right edge and reset the timer. -/
theorem C20_pickup_spawn_witness :
    (∃ p, (spawnPowerUp 0.01 0.5 dwellDemo).powerUps = dwellDemo.powerUps ++ [p] ∧
      p.x = dwellDemo.canvasWidth ∧ p.type = Kind.shield) ∧
    (updatePowerUps 0.01 0.5 dwellDemo).powerUpTimer = 0 := by
  have h := C20_pickup_spawn 0.01 0.5 dwellDemo rfl (by norm_num) (by norm_num)
  obtain ⟨⟨p, hp1, hp2, _, hp4, _⟩, ht⟩ := h.2.2.1 (by decide) (by norm_num)
  refine ⟨⟨p, hp1, hp2, hp4 (by norm_num) (by norm_num)⟩, ?_⟩
  rw [h.2.2.2.2.1, ht]

/-! ## Hitboxes -/

/-- C21: the obstacle hitbox is tighter than the raw box.  For every scale > 0 and every
character and rectangle, if the character's box inset by `5 * scale` on all four sides
overlaps the rectangle (the obstacle test) then the full box overlaps it (the pickup
test).  The converse fails: on `collisionDemo` a rectangle reaching 3 units into the
full box is hit by the pickup test only.  A rectangle that merely touches an edge of
the inset hitbox (its right, left, bottom or top side lies on the hitbox's left, right,
top or bottom side) does not collide. -/
theorem C21_inset_hitbox_is_tighter (d : Dino) (scale : ℚ) (o : Obstacle) (type : Kind)
    (hscale : 0 < scale) :
    (hitsObstacle d scale o = true → hitsPowerUp d (o.asPowerUp type) = true) ∧
    (hitsPowerUp collisionDemo.dino
        { x := 87, y := 160, width := 20, height := 30, type := type } = true ∧
      hitsObstacle collisionDemo.dino collisionDemo.scale
        { x := 87, y := 160, width := 20, height := 30, type := ObstacleType.normal } = false) ∧
    (o.x + o.width = d.x + 5 * scale → hitsObstacle d scale o = false) ∧
    (o.x = d.x + d.width - 5 * scale → hitsObstacle d scale o = false) ∧
    (o.y + o.height = d.y + 5 * scale → hitsObstacle d scale o = false) ∧
    (o.y = d.y + d.height - 5 * scale → hitsObstacle d scale o = false) := by
  refine ⟨?_, ⟨?_, ?_⟩, ?_, ?_, ?_, ?_⟩
  · intro h
    simp only [hitsObstacle, Bool.and_eq_true, decide_eq_true_eq] at h
    obtain ⟨⟨⟨h1, h2⟩, h3⟩, h4⟩ := h
    simp only [hitsPowerUp, Obstacle.asPowerUp, Bool.and_eq_true, decide_eq_true_eq]
    refine ⟨⟨⟨?_, ?_⟩, ?_⟩, ?_⟩ <;> linarith
  · norm_num [hitsPowerUp, collisionDemo, initialState, resizeCanvas_840]
  · norm_num [hitsObstacle, collisionDemo, initialState, resizeCanvas_840]
  · intro h
    simp [hitsObstacle, h]
  · intro h
    simp [hitsObstacle, h]
  · intro h
    simp [hitsObstacle, h]
  · intro h
    simp [hitsObstacle, h]

/-- Witness for C21: at scale 1 the first obstacle of `collisionDemo` overlaps the inset
hitbox, hence the full box. -/
theorem C21_inset_hitbox_is_tighter_witness :
    hitsPowerUp collisionDemo.dino
      (Obstacle.asPowerUp
        { x := 60, y := 160, width := 20, height := 30, type := ObstacleType.normal }
        Kind.shield) = true :=
  (C21_inset_hitbox_is_tighter collisionDemo.dino 1
    { x := 60, y := 160, width := 20, height := 30, type := ObstacleType.normal }
    Kind.shield (by norm_num)).1
    (by norm_num [hitsObstacle, collisionDemo, initialState, resizeCanvas_840])

/-! ## Session-state invariant -/

/-- The flags, the lives and the difficulty after `loseLife`. -/
theorem loseLife_session (s : State) :
    (loseLife s).difficulty = s.difficulty ∧
    (loseLife s).gamePaused = s.gamePaused ∧
    (loseLife s).lives = s.lives - 1 ∧
    (s.lives - 1 ≤ 0 → (loseLife s).gameRunning = false ∧ (loseLife s).gameOver = true) ∧
    (¬ s.lives - 1 ≤ 0 →
      (loseLife s).gameRunning = s.gameRunning ∧ (loseLife s).gameOver = s.gameOver) := by
  unfold loseLife
  simp only []
  refine ⟨?_, ?_, ?_, ?_, ?_⟩
  · split_ifs <;> rfl
  · split_ifs <;> rfl
  · split_ifs <;> rfl
  · intro h
    rw [if_pos h]
    split_ifs <;> exact ⟨rfl, rfl⟩
  · intro h
    rw [if_neg h]
    exact ⟨rfl, rfl⟩

/-- The flags, the lives and the difficulty are untouched by five of the six updates. -/
theorem updates_session_eq (r r1 r2 : ℚ) (s : State) :
    ((updateDino s).gameRunning = s.gameRunning ∧ (updateDino s).gameOver = s.gameOver ∧
      (updateDino s).gamePaused = s.gamePaused ∧ (updateDino s).lives = s.lives ∧
      (updateDino s).difficulty = s.difficulty) ∧
    ((finalState (updateObstacles r s)).gameRunning = s.gameRunning ∧
      (finalState (updateObstacles r s)).gameOver = s.gameOver ∧
      (finalState (updateObstacles r s)).gamePaused = s.gamePaused ∧
      (finalState (updateObstacles r s)).lives = s.lives ∧
      (finalState (updateObstacles r s)).difficulty = s.difficulty) ∧
    ((updatePowerUps r1 r2 s).gameRunning = s.gameRunning ∧
      (updatePowerUps r1 r2 s).gameOver = s.gameOver ∧
      (updatePowerUps r1 r2 s).gamePaused = s.gamePaused ∧
      (updatePowerUps r1 r2 s).lives = s.lives ∧
      (updatePowerUps r1 r2 s).difficulty = s.difficulty) ∧
    ((updateEffects s).gameRunning = s.gameRunning ∧ (updateEffects s).gameOver = s.gameOver ∧
      (updateEffects s).gamePaused = s.gamePaused ∧ (updateEffects s).lives = s.lives ∧
      (updateEffects s).difficulty = s.difficulty) ∧
    ((finalState (updateGameSpeed s)).gameRunning = s.gameRunning ∧
      (finalState (updateGameSpeed s)).gameOver = s.gameOver ∧
      (finalState (updateGameSpeed s)).gamePaused = s.gamePaused ∧
      (finalState (updateGameSpeed s)).lives = s.lives ∧
      (finalState (updateGameSpeed s)).difficulty = s.difficulty) := by
  refine ⟨?_, ?_, ?_, ?_, ?_⟩
  · unfold updateDino
    cases hp : s.gamePaused <;> simp [hp]
  · unfold updateObstacles
    cases hp : s.gamePaused with
    | true => simp [finalState, hp]
    | false =>
      cases hs : difficultySettings s.difficulty with
      | none =>
        by_cases hk : s.difficulty ∈ objectPrototypeKeys <;>
          simp [hk, finalState, Failure.state, moveObstacles_eq, hp]
      | some settings =>
        simp only [Bool.false_eq_true, if_false, finalState, moveObstacles_eq]
        unfold spawnObstacle
        simp only []
        split_ifs <;> simp [hp]
  · unfold updatePowerUps
    cases hp : s.gamePaused with
    | true => simp [hp]
    | false =>
      simp only [Bool.false_eq_true, if_false, movePowerUps_eq]
      unfold spawnPowerUp
      simp only []
      split_ifs <;> simp [hp]
  · unfold updateEffects
    cases hp : s.gamePaused <;> simp [hp]
  · unfold updateGameSpeed
    cases hp : s.gamePaused with
    | true => simp [finalState, hp]
    | false =>
      cases hs : difficultySettings s.difficulty with
      | none =>
        by_cases hk : s.difficulty ∈ objectPrototypeKeys <;>
          simp [hs, hk, finalState, Failure.state, hp]
      | some settings =>
        simp only [hs, Bool.false_eq_true, if_false, finalState, checkAchievements_frame]
        split_ifs <;> simp [hp]

/-- `checkCollisions` keeps the session invariant and the difficulty. -/
theorem checkCollisions_session (s : State) (h : SessionInvariant s) :
    SessionInvariant (checkCollisions s) ∧
    (checkCollisions s).difficulty = s.difficulty := by
  unfold checkCollisions
  cases hp : s.gamePaused with
  | true =>
    simp only [if_true]
    exact ⟨h, trivial⟩
  | false =>
    simp only [Bool.false_eq_true, if_false]
    have hobs : SessionInvariant (obstacleCollisionLoop s.obstacles.length s) ∧
        (obstacleCollisionLoop s.obstacles.length s).difficulty = s.difficulty := by
      rcases obstacleCollisionLoop_cases s s.obstacles.length (Nat.le_refl _) with
        ⟨heq, _⟩ | ⟨i, o, _, _, _, _, heq⟩
      · rw [heq]
        exact ⟨h, rfl⟩
      · rw [heq]
        unfold resolveObstacleHit
        split_ifs
        · exact ⟨h, rfl⟩
        · obtain ⟨hd, hpa, hl, hdead, halive⟩ := loseLife_session s
          refine ⟨?_, hd⟩
          obtain ⟨h1, h2, h3⟩ := h
          unfold SessionInvariant
          by_cases hz : s.lives - 1 ≤ 0
          · obtain ⟨hr, ho⟩ := hdead hz
            rw [hr, ho, hpa, hp]
            simp
          · obtain ⟨hr, ho⟩ := halive hz
            rw [hr, ho, hpa, hl]
            refine ⟨h1, h2, ?_⟩
            intro _
            omega
    generalize obstacleCollisionLoop s.obstacles.length s = t at hobs
    obtain ⟨hinv, hdiff⟩ := hobs
    rcases powerUpCollisionLoop_cases t t.powerUps.length (Nat.le_refl _) with
      ⟨heq, _⟩ | ⟨i, p, _, _, _, _, heq⟩
    · rw [heq]
      exact ⟨hinv, hdiff⟩
    · rw [heq]
      exact ⟨hinv, hdiff⟩

/-- `startGame` with a profile selected establishes the session invariant. -/
theorem startGame_session (s : State) (hv : ValidDifficulty s) :
    SessionInvariant (finalState (startGame s)) ∧
    (finalState (startGame s)).difficulty = s.difficulty := by
  obtain ⟨settings, hs⟩ := hv
  rw [startGame_ok s settings hs]
  refine ⟨⟨?_, ?_, ?_⟩, rfl⟩
  · intro h
    cases h.2
  · intro h
    cases h
  · intro _
    exact le_max_left _ _

/-- The session invariant and the validity of the difficulty only depend on the three
flags, the lives and the selected difficulty. -/
theorem session_of_eq (s t : State)
    (h : t.gameRunning = s.gameRunning ∧ t.gameOver = s.gameOver ∧
      t.gamePaused = s.gamePaused ∧ t.lives = s.lives ∧ t.difficulty = s.difficulty)
    (hs : SessionInvariant s ∧ ValidDifficulty s) :
    SessionInvariant t ∧ ValidDifficulty t := by
  obtain ⟨h1, h2, h3, h4, h5⟩ := h
  unfold SessionInvariant ValidDifficulty at *
  rw [h1, h2, h3, h4, h5]
  exact hs

/-- Every event that selects only profiles keeps the session invariant and the validity
of the selected difficulty. -/
theorem step_session (s : State) (a : Action)
    (ha : ∀ value, a = Action.selectDifficulty value →
      ∃ settings, difficultySettings value = some settings)
    (hs : SessionInvariant s ∧ ValidDifficulty s) :
    SessionInvariant (finalState (step s a)) ∧ ValidDifficulty (finalState (step s a)) := by
  have hstart : ∀ t : State, ValidDifficulty t →
      SessionInvariant (finalState (startGame t)) ∧
        ValidDifficulty (finalState (startGame t)) := by
    intro t ht
    obtain ⟨h1, h2⟩ := startGame_session t ht
    refine ⟨h1, ?_⟩
    unfold ValidDifficulty
    rw [h2]
    exact ht
  cases a with
  | jump =>
    show SessionInvariant (finalState (jump s)) ∧ ValidDifficulty (finalState (jump s))
    unfold jump
    split_ifs
    · exact hstart s hs.2
    · exact hs
    · exact hstart _ hs.2
    · exact hs
  | duck =>
    show SessionInvariant (duck s) ∧ ValidDifficulty (duck s)
    unfold duck
    split_ifs
    · exact hs
    · exact hs
  | releaseDuck => exact hs
  | usePowerUp k =>
    show SessionInvariant (usePowerUp k s) ∧ ValidDifficulty (usePowerUp k s)
    unfold usePowerUp
    split_ifs
    · cases k <;> exact hs
    · exact hs
  | togglePause =>
    show SessionInvariant (togglePause s) ∧ ValidDifficulty (togglePause s)
    unfold togglePause
    split_ifs with hr
    · obtain ⟨⟨h1, _, h3⟩, h4⟩ := hs
      exact ⟨⟨h1, fun _ => hr, h3⟩, h4⟩
    · exact hs
  | selectDifficulty v =>
    obtain ⟨settings, hv⟩ := ha v rfl
    show SessionInvariant (finalState (selectDifficulty v s)) ∧
      ValidDifficulty (finalState (selectDifficulty v s))
    have hsel : selectDifficulty v s =
        .ok { s with difficulty := v, lives := max 1 (3 + settings.livesBonus) } := by
      simp [selectDifficulty, resetLives, hv]
    rw [hsel]
    obtain ⟨⟨h1, h2, _⟩, _⟩ := hs
    exact ⟨⟨h1, h2, fun _ => le_max_left _ _⟩, ⟨settings, hv⟩⟩
  | toggleSound => exact hs
  | frame r r1 r2 =>
    refine gameLoop_preserves (fun t => SessionInvariant t ∧ ValidDifficulty t)
      ?_ ?_ ?_ ?_ ?_ ?_ r r1 r2 s hs
    · intro t ht
      exact session_of_eq t _ (updates_session_eq 0 0 0 t).1 ht
    · intro q t ht
      exact session_of_eq t _ (updates_session_eq q 0 0 t).2.1 ht
    · intro q1 q2 t ht
      exact session_of_eq t _ (updates_session_eq 0 q1 q2 t).2.2.1 ht
    · intro t ht
      exact session_of_eq t _ (updates_session_eq 0 0 0 t).2.2.2.1 ht
    · intro t ht
      obtain ⟨h1, h2⟩ := checkCollisions_session t ht.1
      refine ⟨h1, ?_⟩
      unfold ValidDifficulty
      rw [h2]
      exact ht.2
    · intro t ht
      exact session_of_eq t _ (updates_session_eq 0 0 0 t).2.2.2.2 ht

/-- C22: in every state reachable from a freshly constructed game through frames and
input events, the difficulty selector delivering only the four profiles, `gameRunning`
and `gameOver` are never both true, `gamePaused` implies `gameRunning`, and
`gameRunning` implies `lives ≥ 1`; the selected difficulty is always a profile. -/
theorem C22_session_invariant (s : State) (h : ReachableValid s) :
    ¬ (s.gameRunning = true ∧ s.gameOver = true) ∧
    (s.gamePaused = true → s.gameRunning = true) ∧
    (s.gameRunning = true → 1 ≤ s.lives) ∧
    (∃ settings, difficultySettings s.difficulty = some settings) := by
  have hinv : SessionInvariant s ∧ ValidDifficulty s := by
    induction h with
    | init clientWidth stored =>
      refine ⟨⟨?_, ?_, ?_⟩, ?_⟩
      · intro h
        cases h.1
      · intro h
        cases h
      · intro h
        cases h
      · exact ⟨⟨1.0, 120, 0⟩, by simp [difficultySettings, initialState]⟩
    | step a _ ha ih => exact step_session _ a ha ih
  exact ⟨hinv.1.1, hinv.1.2.1, hinv.1.2.2, hinv.2⟩

/-- Witness for C22: a fresh game started by a jump is running with at least one life;
switched to the extreme profile and advanced by one frame, it still has a profile
selected. -/
theorem C22_session_invariant_witness :
    1 ≤ (finalState (step (initialState 840 none) Action.jump)).lives ∧
    ∃ settings, difficultySettings
      (finalState (step (finalState (step (finalState (step (initialState 840 none)
        Action.jump)) (Action.selectDifficulty "extreme"))) (Action.frame 0 0 0))).difficulty
        = some settings := by
  have hrun : (finalState (step (initialState 840 none) Action.jump)).gameRunning = true := by
    show (finalState (jump (initialState 840 none))).gameRunning = true
    have hj : jump (initialState 840 none) = startGame (initialState 840 none) := by
      simp [jump, initialState]
    rw [hj, startGame_ok (initialState 840 none) ⟨1.0, 120, 0⟩
      (by simp [difficultySettings, initialState])]
    rfl
  exact ⟨(C22_session_invariant _
      (ReachableValid.step Action.jump (ReachableValid.init 840 none)
        (fun _ h => by cases h))).2.2.1 hrun,
    (C22_session_invariant _
      (ReachableValid.step (Action.frame 0 0 0)
        (ReachableValid.step (Action.selectDifficulty "extreme")
          (ReachableValid.step Action.jump (ReachableValid.init 840 none)
            (fun _ h => by cases h))
          (fun value h => by
            cases h
            exact ⟨⟨1.6, 60, -2⟩, by simp [difficultySettings]⟩))
        (fun _ h => by cases h))).2.2.2⟩

/-! ## Jump while ducking, and what a restart keeps -/

/-- C24: a jump started while ducked is cancelled by the next update.  For every
scale > 0, if the character is ducking and grounded at `y = groundY + 15 * scale` on a
running, unpaused session, then after `jump` and one `updateDino` the character has
`jumping = false`, `jumpVelocity = 0` and `y = groundY + 15 * scale` again. -/
theorem C24_jump_while_ducked_is_cancelled (s : State) (hscale : 0 < s.scale)
    (hrun : s.gameRunning = true) (hpaused : s.gamePaused = false)
    (hground : s.dino.jumping = false) (hduck : s.dino.ducking = true)
    (hy : s.dino.y = s.dino.groundY + 15 * s.scale) :
    ∃ j, jump s = .ok j ∧
      j.dino.jumping = true ∧
      (updateDino j).dino.jumping = false ∧
      (updateDino j).dino.jumpVelocity = 0 ∧
      (updateDino j).dino.y = s.dino.groundY + 15 * s.scale := by
  have hjump : jump s = .ok
      { s with dino := { s.dino with jumping := true, jumpVelocity := -12 * s.scale },
               log := s.log ++ [Call.playSound Cue.jump] } := by
    simp [jump, hrun, hground, hpaused]
  have hreach : s.dino.y + -12 * s.scale ≥ s.dino.groundY := by
    rw [hy]
    linarith
  refine ⟨_, hjump, rfl, ?_⟩
  unfold updateDino
  simp only [hpaused, hduck, hreach, Bool.false_eq_true, if_false, if_true,
    Bool.not_false, Bool.true_and]
  cases hs : s.dino.hasShield <;> simp
  split_ifs <;> simp

/-- Witness for C24: the ducking `duckedDemo` (scale 1, resting at `y = 165`). -/
theorem C24_jump_while_ducked_is_cancelled_witness :
    ∃ j, jump duckedDemo = .ok j ∧ (updateDino j).dino.jumping = false ∧
      (updateDino j).dino.y = 165 := by
  obtain ⟨j, h1, _, h3, _, h5⟩ :=
    C24_jump_while_ducked_is_cancelled duckedDemo
      (by norm_num [duckedDemo, collisionDemo, initialState, resizeCanvas_840])
      rfl rfl rfl rfl
      (by norm_num [duckedDemo, collisionDemo, initialState, resizeCanvas_840])
  refine ⟨j, h1, h3, ?_⟩
  rw [h5]
  norm_num [duckedDemo, collisionDemo, initialState, resizeCanvas_840]

/-- C25: `startGame` and `restartGame` leave the power-up inventory, the high score and
the character's `jumping` flag, `jumpVelocity`, `ducking` flag and `height` unchanged,
whether they return or throw; with a profile selected both return.  So the power-ups
collected in one session carry over into the next, and a character that died in the
air starts the new session at `y = groundY` still flagged as airborne. -/
theorem C25_restart_keeps_inventory_and_pose (s : State) :
    ((finalState (startGame s)).powerUpInventory = s.powerUpInventory ∧
      (finalState (startGame s)).highScore = s.highScore ∧
      (finalState (startGame s)).dino.jumping = s.dino.jumping ∧
      (finalState (startGame s)).dino.jumpVelocity = s.dino.jumpVelocity ∧
      (finalState (startGame s)).dino.ducking = s.dino.ducking ∧
      (finalState (startGame s)).dino.height = s.dino.height) ∧
    ((finalState (restartGame s)).powerUpInventory = s.powerUpInventory ∧
      (finalState (restartGame s)).highScore = s.highScore ∧
      (finalState (restartGame s)).dino.jumping = s.dino.jumping ∧
      (finalState (restartGame s)).dino.jumpVelocity = s.dino.jumpVelocity ∧
      (finalState (restartGame s)).dino.ducking = s.dino.ducking ∧
      (finalState (restartGame s)).dino.height = s.dino.height) ∧
    (∀ settings, difficultySettings s.difficulty = some settings →
      (∃ s2, startGame s = .ok s2 ∧ s2.gameRunning = true ∧ s2.dino.y = s.dino.groundY) ∧
      (∃ s3, restartGame s = .ok s3 ∧ s3.gameRunning = true ∧
        s3.dino.y = s.dino.groundY)) := by
  have hkeep : ∀ t : State,
      (finalState (startGame t)).powerUpInventory = t.powerUpInventory ∧
      (finalState (startGame t)).highScore = t.highScore ∧
      (finalState (startGame t)).dino.jumping = t.dino.jumping ∧
      (finalState (startGame t)).dino.jumpVelocity = t.dino.jumpVelocity ∧
      (finalState (startGame t)).dino.ducking = t.dino.ducking ∧
      (finalState (startGame t)).dino.height = t.dino.height := by
    intro t
    cases hs : difficultySettings t.difficulty with
    | none =>
      rw [startGame_error_state t hs]
      exact ⟨rfl, rfl, rfl, rfl, rfl, rfl⟩
    | some settings =>
      rw [startGame_ok t settings hs]
      exact ⟨rfl, rfl, rfl, rfl, rfl, rfl⟩
  refine ⟨hkeep s, hkeep { s with gameOver := false }, ?_⟩
  intro settings hs
  constructor
  · exact ⟨_, startGame_ok s settings hs, rfl, rfl⟩
  · exact ⟨_, startGame_ok { s with gameOver := false } settings hs, rfl, rfl⟩

/-- Witness for C25: restarting `midJumpOverDemo` returns a running session whose
character is at ground level, still flagged as jumping, with the two power-ups kept. -/
theorem C25_restart_keeps_inventory_and_pose_witness :
    (∃ s3, restartGame midJumpOverDemo = .ok s3 ∧ s3.gameRunning = true ∧
      s3.dino.y = midJumpOverDemo.dino.groundY) ∧
    (finalState (restartGame midJumpOverDemo)).dino.jumping = true ∧
    (finalState (restartGame midJumpOverDemo)).powerUpInventory =
      { speedBoost := 1, shield := 0, slowMo := 1 } ∧
    (finalState (restartGame midJumpOverDemo)).highScore = 900 := by
  have h := C25_restart_keeps_inventory_and_pose midJumpOverDemo
  refine ⟨(h.2.2 ⟨1.0, 120, 0⟩
    (by simp [difficultySettings, midJumpOverDemo, initialState])).2, ?_, ?_, ?_⟩
  · rw [h.2.1.2.2.1]
    rfl
  · rw [h.2.1.1]
    rfl
  · rw [h.2.1.2.1]
    rfl

/-! ## The speed boost reaches the movement one frame late -/

/-- Counterexample for C5: on `boostLagDemo` the speed boost is active (it was activated
after the last recomputation of the speed), base speed is 3 and the multiplier is 1.0,
so the claimed displacement is 3 x 1.0 x 1.5 = 4.5; yet the obstacle sweep of the next
frame moves the obstacle from 400 to 397, a displacement of 3. -/
theorem C5_boost_lag_counterexample :
    boostLagDemo.gamePaused = false ∧
    boostLagDemo.effects.speedBoost = true ∧
    boostLagDemo.effects.slowMo = false ∧
    boostLagDemo.baseSpeed = 3 ∧
    difficultySettings boostLagDemo.difficulty = some ⟨1.0, 120, 0⟩ ∧
    boostLagDemo.obstacles =
      [{ x := 400, y := 160, width := 20, height := 30, type := ObstacleType.normal }] ∧
    (∃ s1, updateObstacles 0.5 (updateDino boostLagDemo) = .ok s1 ∧
      s1.obstacles =
        [{ x := 397, y := 160, width := 20, height := 30, type := ObstacleType.normal }]) ∧
    (400 : ℚ) - 397 ≠ boostLagDemo.baseSpeed * 1.0 * 1.5 := by
  have hlag : boostLagDemo =
      { boostReadyDemo with
        powerUpInventory := { speedBoost := 0, shield := 0, slowMo := 0 }
        effects := { speedBoost := true, slowMo := false, speedBoostTime := 300,
                     slowMoTime := 0 }
        log := [Call.playSound Cue.powerup] } := by
    simp [boostLagDemo, usePowerUp, boostReadyDemo, initialState, Inventory.get,
      Inventory.set]
  have hset : difficultySettings boostLagDemo.difficulty = some ⟨1.0, 120, 0⟩ := by
    rw [hlag]
    simp [difficultySettings, boostReadyDemo, initialState]
  have hpaused : boostLagDemo.gamePaused = false := by rw [hlag]; rfl
  have hbase : boostLagDemo.baseSpeed = 3 := by rw [hlag]; rfl
  obtain ⟨hd1, hd2, hd3⟩ := updateDino_speed boostLagDemo
  obtain ⟨s1, h1, h2, _⟩ := sweeps_same_speed 0.5 0 0 (updateDino boostLagDemo)
    ⟨1.0, 120, 0⟩ (hd1.trans hpaused) (by rw [hd2]; exact hset)
  have hval : sweptObstacles (currentSpeed (updateDino boostLagDemo))
      (spawnObstacle 0.5 ⟨1.0, 120, 0⟩ (updateDino boostLagDemo)).obstacles =
      [{ x := 397, y := 160, width := 20, height := 30, type := ObstacleType.normal }] := by
    rw [hd3, hlag]
    norm_num [sweptObstacles, Obstacle.moved, Obstacle.offField, currentSpeed, spawnObstacle,
      spawnThreshold, updateDino, boostReadyDemo, initialState, resizeCanvas_840]
  refine ⟨hpaused, by rw [hlag], by rw [hlag], hbase, hset, by rw [hlag]; rfl,
    ⟨s1, h1, h2.trans hval⟩, ?_⟩
  rw [hbase]
  norm_num

end DinoGame
